import Mathlib

/-!
Verification of the Cipher PvP backend draft-session core (the HSR and ZZZ
spectator routers) against its natural-language specification.

The definitions below are a shallow embedding of `src/routes/hsrSpectator.ts`
and `src/routes/zzzSpectator.ts`: JavaScript numbers are modelled as rationals
(the routers only perform exact decimal arithmetic and `toFixed(3)` rounding),
wall-clock instants as integer milliseconds, JSON state documents as typed
structures with `Option`-typed timer fields (a missing JSON field is `none`),
and the HTTP handlers as pure functions from a session row and a request body
to the updated row, the list of broadcast events and the response.
-/

namespace CipherPvP

/-- Draft sides: Blue and Red. -/
inductive Side where
  | B
  | R
deriving DecidableEq, Repr

/-- String rendering of a side, as used in draft tokens ("B" / "R"). -/
def sideStr : Side → String
  | Side.B => "B"
  | Side.R => "R"

/-- Per-turn grace constant `MOVE_GRACE = 30` seconds (hsrSpectator.ts line 23). -/
def MOVE_GRACE : ℚ := 30

/-- Embedding of `isBanTok` / `isBanToken`: a turn token is a ban slot iff it is
exactly "BB" or "RR". -/
def isBanTok (t : String) : Bool := t == "BB" || t == "RR"

/-- Embedding of JavaScript `s.startsWith(p)` on the character lists of the
two strings (extensionally equal to `String.startsWith`, but reducible). -/
def strStartsWith (s p : String) : Bool := p.data.isPrefixOf s.data

/-- Embedding of `sideOfTok` / `sideOfTokenStrict`: a token starting with "B"
belongs to Blue, with "R" to Red, otherwise it is sideless (`null` / ""). -/
def sideOfTok (t : String) : Option Side :=
  if strStartsWith t "B" then some Side.B
  else if strStartsWith t "R" then some Side.R
  else none

/-- Embedding of `isFirstBanForSide`: the slot at `idx` is a frozen first ban
iff its token is a ban token and no earlier index holds the same token. -/
def isFirstBanForSide (idx : ℕ) (seq : List String) : Bool :=
  let tok := seq.getD idx ""
  isBanTok tok && (List.range idx).all (fun i => !(seq.getD i "" == tok))

/-- Embedding of a `ServerPick` slot of the HSR router. -/
structure ServerPick where
  characterCode : String
  eidolon : ℚ
  lightconeId : Option String
  superimpose : ℚ
deriving DecidableEq, Repr

/-- Embedding of the HSR `SpectatorState` JSON document. Timer fields are
`Option`-typed because the stored JSON may omit them (legacy states). -/
structure SpectatorState where
  draftSequence : List String
  currentTurn : ℕ
  picks : List (Option ServerPick)
  blueScores : List ℚ
  redScores : List ℚ
  blueLocked : Bool
  redLocked : Bool
  timerEnabled : Bool
  reserveSeconds : Option ℚ
  reserveLeft : Option (ℚ × ℚ)
  graceLeft : Option ℚ
  paused : Option (Bool × Bool)
  timerUpdatedAt : Option ℤ
deriving DecidableEq, Repr

/-- Paused flag of a given side from a `{B, R}` pair. -/
def pausedFor (p : Bool × Bool) : Side → Bool
  | Side.B => p.1
  | Side.R => p.2

/-- Embedding of `initTimerFields`: materialize defaults for missing timer
fields (reserveSeconds 0, paused both false, reserveLeft seeded from
`max 0 reserveSeconds`, graceLeft `MOVE_GRACE`, timerUpdatedAt `now`). -/
def initTimerFields (s : SpectatorState) (now : ℤ) : SpectatorState :=
  let rs := s.reserveSeconds.getD 0
  let seed := max 0 rs
  { s with
      reserveSeconds := some rs
      paused := some (s.paused.getD (false, false))
      reserveLeft := some (s.reserveLeft.getD (seed, seed))
      graceLeft := some (s.graceLeft.getD MOVE_GRACE)
      timerUpdatedAt := some (s.timerUpdatedAt.getD now) }

/-- Embedding of JavaScript `Number(x.toFixed(3))` on the non-negative exact
decimals produced by the timer engine: round to the nearest multiple of
1/1000 (half away from zero coincides with half up on non-negatives). -/
def fix3 (q : ℚ) : ℚ := (round (1000 * q) : ℤ) / 1000

/-- Values that are exact multiples of 1/1000; every quantity the timer engine
stores is of this form, so `fix3` is the identity on them. -/
def Dec3 (q : ℚ) : Prop := ∃ n : ℤ, q = n / 1000

/-- Decidable equality of reducer results, used to evaluate concrete runs. -/
instance exceptDecEq {ε α : Type} [DecidableEq ε] [DecidableEq α] :
    DecidableEq (Except ε α) := fun a b =>
  match a, b with
  | Except.error e, Except.error f =>
    if h : e = f then isTrue (by rw [h]) else isFalse (fun hc => h (Except.error.inj hc))
  | Except.ok x, Except.ok y =>
    if h : x = y then isTrue (by rw [h]) else isFalse (fun hc => h (Except.ok.inj hc))
  | Except.error _, Except.ok _ => isFalse (fun hc => Except.noConfusion hc)
  | Except.ok _, Except.error _ => isFalse (fun hc => Except.noConfusion hc)

/-- Embedding of `burnToNow`: drain elapsed time since the last checkpoint
from grace, then from the active side's reserve, unless the slot is sideless,
paused for the active side, or a frozen first ban. -/
def burnToNow (raw : SpectatorState) (nowMs : ℤ) : SpectatorState :=
  let s := initTimerFields raw nowMs
  if !s.timerEnabled then { s with timerUpdatedAt := some nowMs } else
  let tok := s.draftSequence.getD s.currentTurn ""
  let frozen := isFirstBanForSide s.currentTurn s.draftSequence
  let t0 := s.timerUpdatedAt.getD nowMs
  let last := if t0 = 0 then nowMs else t0
  match sideOfTok tok with
  | none => { s with timerUpdatedAt := some nowMs }
  | some sd =>
    if pausedFor (s.paused.getD (false, false)) sd || frozen then
      { s with timerUpdatedAt := some nowMs }
    else
      let dt0 : ℚ := max 0 (((nowMs - last : ℤ) : ℚ) / 1000)
      let grace0 : ℚ := max 0 (s.graceLeft.getD MOVE_GRACE)
      let res := s.reserveLeft.getD (s.reserveSeconds.getD 0, s.reserveSeconds.getD 0)
      let resB0 : ℚ := max 0 res.1
      let resR0 : ℚ := max 0 res.2
      let g := min grace0 dt0
      let grace1 := grace0 - g
      let dt1 := dt0 - g
      let resB1 := if 0 < dt1 then
        (match sd with | Side.B => max 0 (resB0 - dt1) | Side.R => resB0) else resB0
      let resR1 := if 0 < dt1 then
        (match sd with | Side.R => max 0 (resR0 - dt1) | Side.B => resR0) else resR0
      { s with
          graceLeft := some (fix3 grace1)
          reserveLeft := some (fix3 resB1, fix3 resR1)
          timerUpdatedAt := some nowMs }

/-- Embedding of `resetGraceForNewTurn`: re-initialize grace to `MOVE_GRACE`
and move the checkpoint to `now` (called after every turn change). -/
def resetGraceForNewTurn (raw : SpectatorState) (nowMs : ℤ) : SpectatorState :=
  let s := initTimerFields raw nowMs
  { s with graceLeft := some MOVE_GRACE, timerUpdatedAt := some nowMs }

/-- Character featured rule after `sanitizeFeatured` narrowing. -/
inductive CharRule where
  | noRule
  | globalBan
  | globalPick
deriving DecidableEq, Repr

/-- Featured rule item after `sanitizeFeatured`: a character rule, or a
lightcone / W-Engine rule (where only a global ban is honored). -/
inductive FeaturedItem where
  | character (code : String) (rule : CharRule)
  | lightcone (id : String) (banned : Bool)
deriving DecidableEq, Repr

/-- Narrowed featured sets the action handler derives from the featured list. -/
structure FeaturedLists where
  characterGlobalBan : List String
  characterGlobalPick : List String
  lightconeGlobalBan : List String
deriving DecidableEq, Repr

/-- Embedding of the set constructions in the action handler: split the
featured list into the three narrowed sets. -/
def featuredListsOf (fs : List FeaturedItem) : FeaturedLists where
  characterGlobalBan := fs.filterMap fun f => match f with
    | FeaturedItem.character c CharRule.globalBan => some c
    | _ => none
  characterGlobalPick := fs.filterMap fun f => match f with
    | FeaturedItem.character c CharRule.globalPick => some c
    | _ => none
  lightconeGlobalBan := fs.filterMap fun f => match f with
    | FeaturedItem.lightcone i true => some i
    | _ => none

/-- Embedding of `sideLocked`. -/
def sideLocked (s : SpectatorState) : Side → Bool
  | Side.B => s.blueLocked
  | Side.R => s.redLocked

/-- Embedding of `isValidState` on typed HSR states: the typed structure
already guarantees the field-level checks, leaving the non-empty sequence and
the picks length equation. -/
def isValidStateB (s : SpectatorState) : Bool :=
  !s.draftSequence.isEmpty && s.picks.length == s.draftSequence.length

/-- Embedding of the `mySideCodes` duplicate-detection list of the HSR pick
branch: the character codes of every non-empty slot whose turn token starts
with the requesting side's letter (hsrSpectator.ts lines 1095-1099). -/
def mySideCodes (st : SpectatorState) (side : Side) : List String :=
  st.picks.enum.filterMap fun pr =>
    if strStartsWith (st.draftSequence.getD pr.1 "") (sideStr side) then
      pr.2.map (fun p => p.characterCode)
    else none

/-- Embedding of the `pick` branch of the HSR action handler (lines
1075-1117); `st` is the already-burned state and `idx` the validated index. -/
def hsrPick (st : SpectatorState) (fl : FeaturedLists) (side : Side) (idx : ℕ)
    (code? : Option String) (now : ℤ) : Except String SpectatorState :=
  let tok := st.draftSequence.getD idx ""
  if sideLocked st side then Except.error "Side locked"
  else if idx ≠ st.currentTurn then Except.error "Not current turn"
  else if isBanTok tok then Except.error "Cannot pick on ban slot"
  else if sideOfTok tok ≠ some side then Except.error "Wrong side for this turn"
  else match code? with
  | none => Except.error "Missing characterCode"
  | some code =>
    if code = "" then Except.error "Missing characterCode"
    else if fl.characterGlobalBan.contains code then
      Except.error "Character is globally banned"
    else if (mySideCodes st side).contains code then
      Except.error "Character already picked by this side"
    else
      let st1 := { st with
        picks := st.picks.set idx (some
          { characterCode := code, eidolon := 0, lightconeId := none, superimpose := 1 }),
        currentTurn := min (st.currentTurn + 1) st.draftSequence.length }
      Except.ok (resetGraceForNewTurn st1 now)

/-- Embedding of the `ban` branch of the HSR action handler (lines 1118-1146). -/
def hsrBan (st : SpectatorState) (fl : FeaturedLists) (side : Side) (idx : ℕ)
    (code? : Option String) (now : ℤ) : Except String SpectatorState :=
  let tok := st.draftSequence.getD idx ""
  if sideLocked st side then Except.error "Side locked"
  else if idx ≠ st.currentTurn then Except.error "Not current turn"
  else if !isBanTok tok then Except.error "Not a ban slot"
  else if sideOfTok tok ≠ some side then Except.error "Wrong side for this turn"
  else match code? with
  | none => Except.error "Missing characterCode"
  | some code =>
    if code = "" then Except.error "Missing characterCode"
    else if fl.characterGlobalPick.contains code then
      Except.error "Cannot ban: character is globally allowed (globalPick)"
    else
      let st1 := { st with
        picks := st.picks.set idx (some
          { characterCode := code, eidolon := 0, lightconeId := none, superimpose := 1 }),
        currentTurn := min (st.currentTurn + 1) st.draftSequence.length }
      Except.ok (resetGraceForNewTurn st1 now)

/-- Embedding of the `setEidolon` branch (lines 1147-1156): clamp the payload
to `[0, 6]` (missing payload counts as 0) and write it into the slot. -/
def hsrSetEidolon (st : SpectatorState) (side : Side) (idx : ℕ)
    (eid? : Option ℚ) : Except String SpectatorState :=
  let tok := st.draftSequence.getD idx ""
  if sideLocked st side then Except.error "Side locked"
  else if sideOfTok tok ≠ some side || isBanTok tok then
    Except.error "Cannot edit opponent or ban slot"
  else match st.picks.getD idx none with
  | none => Except.error "No character in slot"
  | some slot =>
    Except.ok { st with
      picks := st.picks.set idx (some { slot with eidolon := max 0 (min 6 (eid?.getD 0)) }) }

/-- Embedding of the `setSuperimpose` branch (lines 1157-1166): clamp the
payload to `[1, 5]` (missing payload counts as 1) and write it into the slot. -/
def hsrSetSuperimpose (st : SpectatorState) (side : Side) (idx : ℕ)
    (sup? : Option ℚ) : Except String SpectatorState :=
  let tok := st.draftSequence.getD idx ""
  if sideLocked st side then Except.error "Side locked"
  else if sideOfTok tok ≠ some side || isBanTok tok then
    Except.error "Cannot edit opponent or ban slot"
  else match st.picks.getD idx none with
  | none => Except.error "No character in slot"
  | some slot =>
    Except.ok { st with
      picks := st.picks.set idx (some { slot with superimpose := max 1 (min 5 (sup?.getD 1)) }) }

/-- Embedding of the `setLightcone` branch (lines 1167-1189). -/
def hsrSetLightcone (st : SpectatorState) (fl : FeaturedLists) (side : Side)
    (idx : ℕ) (lc? : Option String) : Except String SpectatorState :=
  let tok := st.draftSequence.getD idx ""
  if sideLocked st side then Except.error "Side locked"
  else if sideOfTok tok ≠ some side || isBanTok tok then
    Except.error "Cannot edit opponent or ban slot"
  else match st.picks.getD idx none with
  | none => Except.error "No character in slot"
  | some slot =>
    match lc? with
    | some l =>
      if l ≠ "" && fl.lightconeGlobalBan.contains l then
        Except.error "Light Cone is globally banned"
      else
        Except.ok { st with
          picks := st.picks.set idx (some
            { slot with lightconeId := if l = "" then none else some l }) }
    | none =>
      Except.ok { st with
        picks := st.picks.set idx (some { slot with lightconeId := none }) }

/-- Embedding of the `setLock` branch (lines 1190-1200): lock the requesting
side once every slot has been drafted; unlocking is never accepted. -/
def hsrSetLock (st : SpectatorState) (side : Side) (locked? : Option Bool) :
    Except String SpectatorState :=
  match locked? with
  | none => Except.error "Missing locked boolean"
  | some false => Except.error "Unlock not allowed here"
  | some true =>
    if st.currentTurn < st.draftSequence.length then Except.error "Draft not complete"
    else Except.ok (match side with
      | Side.B => { st with blueLocked := true }
      | Side.R => { st with redLocked := true })

/-- Embedding of the `undoLast` branch (lines 1201-1222): clear the slot at
`currentTurn - 1`, rewind the turn, and reset grace. -/
def hsrUndoLast (st : SpectatorState) (side : Side) (idx? : Option ℤ)
    (now : ℤ) : Except String SpectatorState :=
  if st.currentTurn = 0 then Except.error "Nothing to undo"
  else
    let lastIdx := st.currentTurn - 1
    let idxOk := match idx? with
      | none => true
      | some i => i == (lastIdx : ℤ)
    if !idxOk then Except.error "Index must equal last turn"
    else if sideLocked st side then Except.error "Side locked"
    else if sideOfTok (st.draftSequence.getD lastIdx "") ≠ some side then
      Except.error "Wrong side for undo"
    else match st.picks.getD lastIdx none with
    | none => Except.error "Slot already empty"
    | some _ =>
      let st1 := { st with picks := st.picks.set lastIdx none, currentTurn := lastIdx }
      Except.ok (resetGraceForNewTurn st1 now)

/-- Player action request body, after JSON parsing. A `none` field is a
missing (or non-integer, for `index`) payload field. -/
structure ActionReq where
  op : String
  index : Option ℤ
  characterCode : Option String
  eidolon : Option ℚ
  superimpose : Option ℚ
  lightconeId : Option String
  wengineId : Option String
  phase : Option ℚ
  locked : Option Bool
deriving DecidableEq, Repr

/-- Embedding of the index validation shared by the indexed ops. -/
def checkIndex (idx? : Option ℤ) (len : ℕ) : Except String ℕ :=
  match idx? with
  | none => Except.error "Invalid index"
  | some i =>
    if i < 0 then Except.error "Invalid index"
    else if (len : ℤ) ≤ i then Except.error "Index out of range"
    else Except.ok i.toNat

/-- Embedding of the legacy ZZZ op-name aliases accepted by the HSR handler. -/
def hsrOpAlias (op : String) : String :=
  if op == "setMindscape" then "setEidolon"
  else if op == "setWengine" then "setLightcone"
  else op

/-- Embedding of the op dispatch of the HSR action handler: burn the state to
`now`, validate the index for the indexed ops, and run the op branch. -/
def hsrReduce (st0 : SpectatorState) (fl : FeaturedLists) (side : Side)
    (req : ActionReq) (now : ℤ) : Except String SpectatorState :=
  let op := hsrOpAlias req.op
  let lcId := match req.lightconeId with
    | some l => some l
    | none => req.wengineId
  let sup := match req.superimpose with
    | some v => some v
    | none => req.phase
  let st := burnToNow st0 now
  let opNeedsIndex := op == "pick" || op == "ban" || op == "setEidolon" ||
    op == "setSuperimpose" || op == "setLightcone"
  if opNeedsIndex then
    match checkIndex req.index st.draftSequence.length with
    | Except.error e => Except.error e
    | Except.ok idx =>
      if op == "pick" then hsrPick st fl side idx req.characterCode now
      else if op == "ban" then hsrBan st fl side idx req.characterCode now
      else if op == "setEidolon" then hsrSetEidolon st side idx req.eidolon
      else if op == "setSuperimpose" then hsrSetSuperimpose st side idx sup
      else hsrSetLightcone st fl side idx lcId
  else if op == "setLock" then hsrSetLock st side req.locked
  else if op == "undoLast" then hsrUndoLast st side req.index now
  else Except.error "Invalid op"

/-- Embedding of a `hsr_draft_sessions` row (the columns the handlers read). -/
structure HsrRow where
  owner_user_id : String
  state : SpectatorState
  featured : List FeaturedItem
  is_complete : Bool
  completed_at : Option ℤ
  last_activity_at : ℤ
  blue_token : String
  red_token : String
  cost_profile_id : Option String
  cost_limit : ℚ
  penalty_per_point : ℤ
deriving DecidableEq, Repr

/-- Resolve the side a player token authorizes, as the action handler does. -/
def resolveSide (blueToken redToken pt : String) : Option Side :=
  if blueToken == pt then some Side.B
  else if redToken == pt then some Side.R
  else none

/-- Embedding of the POST `/api/hsr/sessions/:key/actions` handler on a loaded
row: reject on missing token, completed draft, unknown token or corrupt
state; otherwise burn, reduce, and persist. The second component lists the
broadcast events emitted, the third holds the rejection message if any. -/
def hsrHandleAction (row : HsrRow) (req : ActionReq) (pt : String) (now : ℤ) :
    HsrRow × List String × Option String :=
  if pt = "" then (row, [], some "Missing pt")
  else if row.is_complete then (row, [], some "Draft already completed")
  else match resolveSide row.blue_token row.red_token pt with
  | none => (row, [], some "Invalid player token")
  | some side =>
    if !isValidStateB row.state then (row, [], some "Corrupt state")
    else match hsrReduce row.state (featuredListsOf row.featured) side req now with
    | Except.error e => (row, [], some e)
    | Except.ok st =>
      ({ row with state := st, last_activity_at := now }, ["update"], none)

/-- Embedding of the DELETE `/api/hsr/sessions/:key` handler on a loaded row:
only the owner may delete, and only while the session is unfinished. The
first component is the surviving row (`none` once deleted). -/
def hsrDeleteSession (row : HsrRow) (viewerId : String) :
    Option HsrRow × List String × Option String :=
  if row.owner_user_id ≠ viewerId then (some row, [], some "Forbidden")
  else if row.is_complete then
    (some row, [], some "Cannot delete a completed session")
  else (none, ["deleted"], none)

/-- Embedding of `normalizeIncomingState` for the HSR router: clamp each
slot's eidolon to `[0,6]` and superimpose to `[1,5]` (non-integers fall back
to the defaults 0 and 1), normalize empty lightcone ids to `null`, and clamp
`currentTurn` into `[0, len(draftSequence)]`. -/
def normalizeIncomingState (s : SpectatorState) : SpectatorState :=
  let picks := s.picks.map fun p? => p?.map fun p =>
    let sup := if p.superimpose.den == 1 then p.superimpose else 1
    let eid := if p.eidolon.den == 1 then p.eidolon else 0
    let lc := match p.lightconeId with
      | none => none
      | some l => if l = "" then none else some l
    { characterCode := p.characterCode
      eidolon := max 0 (min 6 eid)
      lightconeId := lc
      superimpose := max 1 (min 5 sup) : ServerPick }
  { s with currentTurn := min s.draftSequence.length s.currentTurn, picks := picks }

/-- Owner update request body for the HSR PUT handler. `hasState` records
whether the request body carried a `state` key at all; `state = none` with
`hasState = true` stands for a present but non-object value. Other `none`
fields are missing (or non-coercible) body fields. -/
structure UpdateBody where
  hasState : Bool
  state : Option SpectatorState
  isComplete : Option Bool
  featured : Option (List FeaturedItem)
  costProfileId : Option (Option String)
  costLimit : Option ℚ
  penaltyPerPoint : Option ℚ
  timerEnabled : Option Bool
  reserveSeconds : Option ℚ
  paused : Option (Bool × Bool)
deriving DecidableEq, Repr

/-- Whether the PUT handler will update the state column: the body must carry
a `state` key whose value passes `isValidState`. -/
def wantsValidState (body : UpdateBody) : Bool :=
  body.hasState && (match body.state with
    | some s => isValidStateB s
    | none => false)

/-- Merge the body-level timer overrides into a normalized incoming state and
re-seed missing timer fields, as the PUT handler does before persisting. -/
def mergeOwnerState (s : SpectatorState) (body : UpdateBody) (now : ℤ) :
    SpectatorState :=
  let m0 := normalizeIncomingState s
  let m1 := match body.timerEnabled with
    | some b => { m0 with timerEnabled := b }
    | none => m0
  let m2 := match body.reserveSeconds with
    | some r => { m1 with reserveSeconds := some (max 0 r) }
    | none => m1
  let m3 := match body.paused with
    | some p => { m2 with paused := some p }
    | none => m2
  initTimerFields m3 now

/-- Response of the PUT handler (the fields the claims mention). -/
structure UpdateResp where
  ok : Bool
  stateUpdated : Bool
  error : Option String
deriving DecidableEq, Repr

/-- Embedding of the PUT `/api/hsr/sessions/:key` handler on a loaded row.
`ownsPreset` stands for the preset-ownership lookup against
`hsr_cost_presets`. The SQL `COALESCE` / `CASE` row update is translated
field by field. -/
def hsrOwnerUpdate (row : HsrRow) (viewerId : String) (body : UpdateBody)
    (now : ℤ) (ownsPreset : String → Bool) :
    HsrRow × UpdateResp × List String :=
  if row.owner_user_id ≠ viewerId then
    (row, { ok := false, stateUpdated := false, error := some "Forbidden" }, [])
  else
    let shouldUpdateState := wantsValidState body
    let stateJson : Option SpectatorState :=
      if shouldUpdateState then body.state.map (fun s => mergeOwnerState s body now)
      else none
    let presetIdSql : Option (Option String) :=
      match body.costProfileId with
      | none => none
      | some none => some none
      | some (some cid) =>
        if cid ≠ "" then (if ownsPreset cid then some (some cid) else some none)
        else some none
    let clUpdate : Option ℚ := match body.costLimit with
      | some v => if 0 < v then some v else none
      | none => none
    let penUpdate : Option ℤ := match body.penaltyPerPoint with
      | some v => if 0 < v then some ⌊v⌋ else none
      | none => none
    let row' : HsrRow := { row with
      state := stateJson.getD row.state
      featured := body.featured.getD row.featured
      is_complete := body.isComplete.getD row.is_complete
      completed_at :=
        if body.isComplete = some true ∧ row.completed_at = none then some now
        else row.completed_at
      cost_profile_id := match presetIdSql with
        | none => row.cost_profile_id
        | some v => v
      cost_limit := clUpdate.getD row.cost_limit
      penalty_per_point := penUpdate.getD row.penalty_per_point
      last_activity_at := now }
    (row', { ok := true, stateUpdated := shouldUpdateState, error := none },
      ["update"])

/-- Embedding of a ZZZ `ServerPick` slot (W-Engine instead of lightcone). -/
structure ZzzPick where
  characterCode : String
  eidolon : ℚ
  wengineId : Option String
  superimpose : ℚ
deriving DecidableEq, Repr

/-- Embedding of the ZZZ `SpectatorState` document (no timer fields). -/
structure ZzzState where
  draftSequence : List String
  currentTurn : ℕ
  picks : List (Option ZzzPick)
  blueScores : List ℚ
  redScores : List ℚ
  blueLocked : Bool
  redLocked : Bool
deriving DecidableEq, Repr

/-- Embedding of `sideLocked` for the ZZZ router. -/
def zzzSideLocked (s : ZzzState) : Side → Bool
  | Side.B => s.blueLocked
  | Side.R => s.redLocked

/-- Embedding of `isValidState` on typed ZZZ states. -/
def zzzIsValidStateB (s : ZzzState) : Bool :=
  !s.draftSequence.isEmpty && s.picks.length == s.draftSequence.length

/-- Embedding of the `mySideCodes` duplicate-detection list of the ZZZ pick
branch (zzzSpectator.ts lines 548-552). -/
def zzzMySideCodes (st : ZzzState) (side : Side) : List String :=
  st.picks.enum.filterMap fun pr =>
    if strStartsWith (st.draftSequence.getD pr.1 "") (sideStr side) then
      pr.2.map (fun p => p.characterCode)
    else none

/-- Embedding of the ZZZ `pick` branch (lines 533-559); the ZZZ router has no
timer, so no burn or grace reset is involved. -/
def zzzPick (st : ZzzState) (fl : FeaturedLists) (side : Side) (idx : ℕ)
    (code? : Option String) : Except String ZzzState :=
  let tok := st.draftSequence.getD idx ""
  if zzzSideLocked st side then Except.error "Side locked"
  else if idx ≠ st.currentTurn then Except.error "Not current turn"
  else if isBanTok tok then Except.error "Cannot pick on ban slot"
  else if sideOfTok tok ≠ some side then Except.error "Wrong side for this turn"
  else match code? with
  | none => Except.error "Missing characterCode"
  | some code =>
    if code = "" then Except.error "Missing characterCode"
    else if fl.characterGlobalBan.contains code then
      Except.error "Character is globally banned"
    else if (zzzMySideCodes st side).contains code then
      Except.error "Character already picked by this side"
    else
      Except.ok { st with
        picks := st.picks.set idx (some
          { characterCode := code, eidolon := 0, wengineId := none, superimpose := 1 }),
        currentTurn := min (st.currentTurn + 1) st.draftSequence.length }

/-- Embedding of the ZZZ `ban` branch (lines 561-576). -/
def zzzBan (st : ZzzState) (fl : FeaturedLists) (side : Side) (idx : ℕ)
    (code? : Option String) : Except String ZzzState :=
  let tok := st.draftSequence.getD idx ""
  if zzzSideLocked st side then Except.error "Side locked"
  else if idx ≠ st.currentTurn then Except.error "Not current turn"
  else if !isBanTok tok then Except.error "Not a ban slot"
  else if sideOfTok tok ≠ some side then Except.error "Wrong side for this turn"
  else match code? with
  | none => Except.error "Missing characterCode"
  | some code =>
    if code = "" then Except.error "Missing characterCode"
    else if fl.characterGlobalPick.contains code then
      Except.error "Cannot ban: character is globally allowed (globalPick)"
    else
      Except.ok { st with
        picks := st.picks.set idx (some
          { characterCode := code, eidolon := 0, wengineId := none, superimpose := 1 }),
        currentTurn := min (st.currentTurn + 1) st.draftSequence.length }

/-- Embedding of the ZZZ `setMindscape` branch (lines 578-583): clamp the
eidolon payload to `[0, 6]` and write it into the slot. -/
def zzzSetMindscape (st : ZzzState) (side : Side) (idx : ℕ)
    (eid? : Option ℚ) : Except String ZzzState :=
  let tok := st.draftSequence.getD idx ""
  if zzzSideLocked st side then Except.error "Side locked"
  else if sideOfTok tok ≠ some side || isBanTok tok then
    Except.error "Cannot edit opponent or ban slot"
  else match st.picks.getD idx none with
  | none => Except.error "No character in slot"
  | some slot =>
    Except.ok { st with
      picks := st.picks.set idx (some { slot with eidolon := max 0 (min 6 (eid?.getD 0)) }) }

/-- Embedding of the ZZZ `setSuperimpose` branch (lines 585-590): clamp to
`[1, 5]`. -/
def zzzSetSuperimpose (st : ZzzState) (side : Side) (idx : ℕ)
    (sup? : Option ℚ) : Except String ZzzState :=
  let tok := st.draftSequence.getD idx ""
  if zzzSideLocked st side then Except.error "Side locked"
  else if sideOfTok tok ≠ some side || isBanTok tok then
    Except.error "Cannot edit opponent or ban slot"
  else match st.picks.getD idx none with
  | none => Except.error "No character in slot"
  | some slot =>
    Except.ok { st with
      picks := st.picks.set idx (some { slot with superimpose := max 1 (min 5 (sup?.getD 1)) }) }

/-- Embedding of the ZZZ `setWengine` branch (lines 592-605). -/
def zzzSetWengine (st : ZzzState) (fl : FeaturedLists) (side : Side)
    (idx : ℕ) (we? : Option String) : Except String ZzzState :=
  let tok := st.draftSequence.getD idx ""
  if zzzSideLocked st side then Except.error "Side locked"
  else if sideOfTok tok ≠ some side || isBanTok tok then
    Except.error "Cannot edit opponent or ban slot"
  else match st.picks.getD idx none with
  | none => Except.error "No character in slot"
  | some slot =>
    match we? with
    | some w =>
      if w ≠ "" && fl.lightconeGlobalBan.contains w then
        Except.error "W-Engine is globally banned"
      else
        Except.ok { st with
          picks := st.picks.set idx (some
            { slot with wengineId := if w = "" then none else some w }) }
    | none =>
      Except.ok { st with
        picks := st.picks.set idx (some { slot with wengineId := none }) }

/-- Embedding of the ZZZ `setLock` branch (lines 607-615). -/
def zzzSetLock (st : ZzzState) (side : Side) (locked? : Option Bool) :
    Except String ZzzState :=
  match locked? with
  | none => Except.error "Missing locked boolean"
  | some false => Except.error "Unlock not allowed here"
  | some true =>
    if st.currentTurn < st.draftSequence.length then Except.error "Draft not complete"
    else Except.ok (match side with
      | Side.B => { st with blueLocked := true }
      | Side.R => { st with redLocked := true })

/-- Embedding of the ZZZ `undoLast` branch (lines 617-633). -/
def zzzUndoLast (st : ZzzState) (side : Side) (idx? : Option ℤ) :
    Except String ZzzState :=
  if st.currentTurn = 0 then Except.error "Nothing to undo"
  else
    let lastIdx := st.currentTurn - 1
    let idxOk := match idx? with
      | none => true
      | some i => i == (lastIdx : ℤ)
    if !idxOk then Except.error "Index must equal last turn"
    else if zzzSideLocked st side then Except.error "Side locked"
    else if sideOfTok (st.draftSequence.getD lastIdx "") ≠ some side then
      Except.error "Wrong side for undo"
    else match st.picks.getD lastIdx none with
    | none => Except.error "Slot already empty"
    | some _ =>
      Except.ok { st with picks := st.picks.set lastIdx none, currentTurn := lastIdx }

/-- Embedding of the op dispatch of the ZZZ action handler (no burn, no
legacy aliases, the ZZZ op names). -/
def zzzReduce (st : ZzzState) (fl : FeaturedLists) (side : Side)
    (req : ActionReq) : Except String ZzzState :=
  let op := req.op
  let opNeedsIndex := op == "pick" || op == "ban" || op == "setMindscape" ||
    op == "setSuperimpose" || op == "setWengine"
  if opNeedsIndex then
    match checkIndex req.index st.draftSequence.length with
    | Except.error e => Except.error e
    | Except.ok idx =>
      if op == "pick" then zzzPick st fl side idx req.characterCode
      else if op == "ban" then zzzBan st fl side idx req.characterCode
      else if op == "setMindscape" then zzzSetMindscape st side idx req.eidolon
      else if op == "setSuperimpose" then zzzSetSuperimpose st side idx req.superimpose
      else zzzSetWengine st fl side idx req.wengineId
  else if op == "setLock" then zzzSetLock st side req.locked
  else if op == "undoLast" then zzzUndoLast st side req.index
  else Except.error "Invalid op"

/-- Embedding of a `zzz_draft_sessions` row. -/
structure ZzzRow where
  owner_user_id : String
  state : ZzzState
  featured : List FeaturedItem
  is_complete : Bool
  completed_at : Option ℤ
  last_activity_at : ℤ
  blue_token : String
  red_token : String
deriving DecidableEq, Repr

/-- Embedding of the POST `/api/zzz/sessions/:key/actions` handler on a
loaded row. -/
def zzzHandleAction (row : ZzzRow) (req : ActionReq) (pt : String) (now : ℤ) :
    ZzzRow × List String × Option String :=
  if pt = "" then (row, [], some "Missing pt")
  else if row.is_complete then (row, [], some "Draft already completed")
  else match resolveSide row.blue_token row.red_token pt with
  | none => (row, [], some "Invalid player token")
  | some side =>
    if !zzzIsValidStateB row.state then (row, [], some "Corrupt state")
    else match zzzReduce row.state (featuredListsOf row.featured) side req with
    | Except.error e => (row, [], some e)
    | Except.ok st =>
      ({ row with state := st, last_activity_at := now }, ["update"], none)

/-- Embedding of the PUT `/api/zzz/sessions/:key` handler: the ZZZ owner
update persists a valid incoming state verbatim and has no cost fields. -/
def zzzOwnerUpdate (row : ZzzRow) (viewerId : String) (hasState : Bool)
    (state? : Option ZzzState) (isComplete? : Option Bool)
    (featured? : Option (List FeaturedItem)) (now : ℤ) :
    ZzzRow × UpdateResp × List String :=
  if row.owner_user_id ≠ viewerId then
    (row, { ok := false, stateUpdated := false, error := some "Forbidden" }, [])
  else
    let shouldUpdateState := hasState && (match state? with
      | some s => zzzIsValidStateB s
      | none => false)
    let stateJson : Option ZzzState := if shouldUpdateState then state? else none
    let row' : ZzzRow := { row with
      state := stateJson.getD row.state
      featured := featured?.getD row.featured
      is_complete := isComplete?.getD row.is_complete
      completed_at :=
        if isComplete? = some true ∧ row.completed_at = none then some now
        else row.completed_at
      last_activity_at := now }
    (row', { ok := true, stateUpdated := shouldUpdateState, error := none },
      ["update"])

/-- Embedding of the DELETE `/api/zzz/sessions/:key` handler. -/
def zzzDeleteSession (row : ZzzRow) (viewerId : String) :
    Option ZzzRow × List String × Option String :=
  if row.owner_user_id ≠ viewerId then (some row, [], some "Forbidden")
  else if row.is_complete then
    (some row, [], some "Cannot delete a completed session")
  else (none, ["deleted"], none)

/-- Specification-side burn, written from the spec text of the burn
algorithm for comparison with `burnToNow`: take `dt = max(0, (now -
timerUpdatedAt)/1000)`; if the active token is sideless, paused, or a first
ban slot, only move the checkpoint; otherwise drain `min(dt, graceLeft)`
from the grace, subtract the remaining `dt` from the active side's reserve
floored at zero, leave the other reserve unchanged, and move the
checkpoint. -/
def specTimerBurn (s : SpectatorState) (now : ℤ) : SpectatorState :=
  let tok := s.draftSequence.getD s.currentTurn ""
  let g := s.graceLeft.getD MOVE_GRACE
  let dt : ℚ := max 0 (((now - s.timerUpdatedAt.getD now : ℤ) : ℚ) / 1000)
  match sideOfTok tok with
  | none => { s with timerUpdatedAt := some now }
  | some sd =>
    if pausedFor (s.paused.getD (false, false)) sd ||
        isFirstBanForSide s.currentTurn s.draftSequence then
      { s with timerUpdatedAt := some now }
    else
      let drained := min dt g
      let rest := dt - drained
      let res := s.reserveLeft.getD (0, 0)
      { s with
          graceLeft := some (g - drained)
          reserveLeft := some (match sd with
            | Side.B => (max 0 (res.1 - rest), res.2)
            | Side.R => (res.1, max 0 (res.2 - rest)))
          timerUpdatedAt := some now }

/-- Invariant (P1) and (P2) of the spec: the turn cursor stays in range and a
slot is non-empty exactly when its index is below `currentTurn`. -/
def Inv (s : SpectatorState) : Prop :=
  s.currentTurn ≤ s.draftSequence.length ∧
  s.picks.length = s.draftSequence.length ∧
  ∀ i < s.picks.length, ((s.picks.getD i none).isSome = true ↔ i < s.currentTurn)

/-- Concrete session state used in scenario proofs: the six-token sequence of
spec scenario 5, both bans already made, timer enabled with 180 s reserves,
checkpoint at 10 s. -/
def stScenario : SpectatorState :=
  { draftSequence := ["BB", "RR", "B", "R", "B", "R"]
    currentTurn := 2
    picks := [some ⟨"c1", 0, none, 1⟩, some ⟨"c2", 0, none, 1⟩, none, none, none, none]
    blueScores := []
    redScores := []
    blueLocked := false
    redLocked := false
    timerEnabled := true
    reserveSeconds := some 180
    reserveLeft := some (180, 180)
    graceLeft := some 30
    paused := some (false, false)
    timerUpdatedAt := some 10000 }

/-- Concrete HSR session row wrapping `stScenario`. -/
def rowScenario : HsrRow :=
  { owner_user_id := "owner1"
    state := stScenario
    featured := []
    is_complete := false
    completed_at := none
    last_activity_at := 0
    blue_token := "blueTok"
    red_token := "redTok"
    cost_profile_id := none
    cost_limit := 6
    penalty_per_point := 2500 }

/-- Player request with every optional field absent. -/
def emptyReq : ActionReq :=
  { op := "", index := none, characterCode := none, eidolon := none,
    superimpose := none, lightconeId := none, wengineId := none,
    phase := none, locked := none }

/-- Blue's pick of character c3 at index 2 (spec scenario 5). -/
def pickC3Req : ActionReq :=
  { emptyReq with op := "pick", index := some 2, characterCode := some "c3" }

/-- Blue's undo request with no explicit index. -/
def undoReq : ActionReq := { emptyReq with op := "undoLast" }

/-- Blue's pick of character c1, which sits in Blue's ban slot 0 of
`stScenario` and in no pick slot. -/
def pickC1Req : ActionReq :=
  { emptyReq with op := "pick", index := some 2, characterCode := some "c1" }

/-- Result row of running the scenario-5 pick at t = 10 s. -/
def rowAfterPick : HsrRow := (hsrHandleAction rowScenario pickC3Req "blueTok" 10000).1

/-- Result row of the scenario-5 undo at t = 45 s after the pick. -/
def rowAfterUndo : HsrRow := (hsrHandleAction rowAfterPick undoReq "blueTok" 45000).1

/-- Concrete ZZZ state mirroring `stScenario` (no timer fields). -/
def zzzStScenario : ZzzState :=
  { draftSequence := ["BB", "RR", "B", "R", "B", "R"]
    currentTurn := 2
    picks := [some ⟨"c1", 0, none, 1⟩, some ⟨"c2", 0, none, 1⟩, none, none, none, none]
    blueScores := []
    redScores := []
    blueLocked := false
    redLocked := false }

/-- Concrete complete HSR row used for completion and immutability claims. -/
def rowComplete : HsrRow :=
  { rowScenario with is_complete := true, completed_at := some 5000 }

/-- Owner update body with every field absent. -/
def emptyBody : UpdateBody :=
  { hasState := false, state := none, isComplete := none, featured := none,
    costProfileId := none, costLimit := none, penaltyPerPoint := none,
    timerEnabled := none, reserveSeconds := none, paused := none }

/-- Expected state right after Blue's c3 pick at t = 10 s (reducer level):
slot 2 filled, turn advanced to 3, grace reset, checkpoint still 10 s. -/
def stPickedCx : SpectatorState :=
  { stScenario with
      currentTurn := 3
      picks := [some ⟨"c1", 0, none, 1⟩, some ⟨"c2", 0, none, 1⟩,
                some ⟨"c3", 0, none, 1⟩, none, none, none] }

/-- Expected state after Blue's undo at t = 50 s following the pick: turn
and picks restored, but Red (on the clock after the pick) was debited the
10 s beyond the grace window. -/
def stUndoneCx : SpectatorState :=
  { stScenario with
      reserveLeft := some (180, 170)
      timerUpdatedAt := some 50000 }

/-- Expected row after the scenario-5 pick at t = 10 s. -/
def rowAfterPickExpected : HsrRow :=
  { rowScenario with state := stPickedCx, last_activity_at := 10000 }

/-- Expected row after the scenario-5 undo at t = 45 s: Red's reserve is
down to 175, Blue's reserve is untouched. -/
def rowAfterUndoExpected : HsrRow :=
  { rowScenario with
      state := { stScenario with
                   reserveLeft := some (180, 175)
                   timerUpdatedAt := some 45000 }
      last_activity_at := 45000 }

/-- Tiny valid replacement state (one Blue pick slot, nothing drafted). -/
def stTiny : SpectatorState :=
  { draftSequence := ["B"]
    currentTurn := 0
    picks := [none]
    blueScores := []
    redScores := []
    blueLocked := false
    redLocked := false
    timerEnabled := false
    reserveSeconds := none
    reserveLeft := none
    graceLeft := none
    paused := none
    timerUpdatedAt := none }

/-- Owner update body supplying only isComplete = false. -/
def bodyUncomplete : UpdateBody := { emptyBody with isComplete := some false }

/-- Owner update body carrying a state key with an invalid value, together
with other updates that must still apply. -/
def bodyInvalidState : UpdateBody :=
  { emptyBody with
      hasState := true
      state := none
      isComplete := some true
      costLimit := some 9 }

/-- Owner update body supplying only a new (valid) state document. -/
def bodyNewState : UpdateBody :=
  { emptyBody with hasState := true, state := some stTiny }

/-- Concrete ZZZ state with one Blue pick slot filled (for clamp scenarios). -/
def zzzStTinyAfter : ZzzState :=
  { draftSequence := ["B"], currentTurn := 1,
    picks := [some ⟨"x", 0, none, 1⟩], blueScores := [], redScores := [],
    blueLocked := false, redLocked := false }

/-- Row wrapping `stTiny`, with the timer disabled. -/
def rowTiny : HsrRow :=
  { owner_user_id := "o", state := stTiny, featured := [], is_complete := false,
    completed_at := none, last_activity_at := 0, blue_token := "b",
    red_token := "r", cost_profile_id := none, cost_limit := 6,
    penalty_per_point := 2500 }

/-- Pick of character x at index 0 on the tiny state. -/
def pickTinyReq : ActionReq :=
  { emptyReq with op := "pick", index := some 0, characterCode := some "x" }

/-- Expected row after the tiny pick at t = 0 (timer fields materialized by
`initTimerFields`, slot 0 filled, turn advanced). -/
def rowTinyAfter : HsrRow :=
  { rowTiny with
      state := { draftSequence := ["B"], currentTurn := 1,
                 picks := [some ⟨"x", 0, none, 1⟩], blueScores := [],
                 redScores := [], blueLocked := false, redLocked := false,
                 timerEnabled := false, reserveSeconds := some 0,
                 reserveLeft := some (0, 0), graceLeft := some 30,
                 paused := some (false, false), timerUpdatedAt := some 0 }
      last_activity_at := 0 }

/-- Expected state after setEidolon 7 on slot 0 of `rowTinyAfter.state`:
the payload is clamped down to 6. -/
def stEidAfter : SpectatorState :=
  { draftSequence := ["B"], currentTurn := 1,
    picks := [some ⟨"x", 6, none, 1⟩], blueScores := [], redScores := [],
    blueLocked := false, redLocked := false, timerEnabled := false,
    reserveSeconds := some 0, reserveLeft := some (0, 0),
    graceLeft := some 30, paused := some (false, false),
    timerUpdatedAt := some 0 }

theorem fix3_eq_self {q : ℚ} (h : Dec3 q) : fix3 q = q := by
  obtain ⟨n, rfl⟩ := h
  unfold fix3
  have h1000 : (1000 : ℚ) ≠ 0 := by norm_num
  rw [mul_div_cancel₀ _ h1000, round_intCast]

theorem Dec3.sub {a b : ℚ} (ha : Dec3 a) (hb : Dec3 b) : Dec3 (a - b) := by
  obtain ⟨m, rfl⟩ := ha
  obtain ⟨n, rfl⟩ := hb
  exact ⟨m - n, by push_cast; ring⟩

theorem Dec3.min {a b : ℚ} (ha : Dec3 a) (hb : Dec3 b) : Dec3 (min a b) := by
  rcases le_total a b with h | h
  · rwa [min_eq_left h]
  · rwa [min_eq_right h]

theorem Dec3.max {a b : ℚ} (ha : Dec3 a) (hb : Dec3 b) : Dec3 (max a b) := by
  rcases le_total a b with h | h
  · rwa [max_eq_right h]
  · rwa [max_eq_left h]

theorem Dec3.zero : Dec3 (0 : ℚ) := ⟨0, by norm_num⟩

theorem Dec3.grace : Dec3 MOVE_GRACE := ⟨30000, by norm_num [MOVE_GRACE]⟩

theorem Dec3.divMs (n : ℤ) : Dec3 ((n : ℚ) / 1000) := ⟨n, rfl⟩

theorem getD_set_self {α : Type} : ∀ (l : List α) (i : ℕ) (v d : α),
    i < l.length → (l.set i v).getD i d = v
  | _ :: _, 0, _, _, _ => rfl
  | _ :: l, i + 1, v, d, h => getD_set_self l i v d (Nat.lt_of_succ_lt_succ h)

theorem getD_set_ne {α : Type} : ∀ (l : List α) (i j : ℕ) (v d : α),
    i ≠ j → (l.set i v).getD j d = l.getD j d
  | [], _, _, _, _, _ => rfl
  | _ :: _, 0, 0, _, _, h => absurd rfl h
  | _ :: _, 0, _ + 1, _, _, _ => rfl
  | _ :: _, _ + 1, 0, _, _, _ => rfl
  | _ :: l, i + 1, j + 1, v, d, h =>
      getD_set_ne l i j v d (fun e => h (by rw [e]))

theorem set_getD_none {α : Type} : ∀ (l : List (Option α)) (i : ℕ),
    l.getD i none = none → l.set i none = l
  | [], _, _ => rfl
  | a :: l, 0, h => by
      have ha : a = none := h
      simp [List.set, ha]
  | _ :: l, i + 1, h => by
      simp [List.set, set_getD_none l i h]

theorem initTimerFields_frame (s : SpectatorState) (now : ℤ) :
    (initTimerFields s now).draftSequence = s.draftSequence ∧
    (initTimerFields s now).currentTurn = s.currentTurn ∧
    (initTimerFields s now).picks = s.picks ∧
    (initTimerFields s now).blueLocked = s.blueLocked ∧
    (initTimerFields s now).redLocked = s.redLocked ∧
    (initTimerFields s now).timerEnabled = s.timerEnabled :=
  ⟨rfl, rfl, rfl, rfl, rfl, rfl⟩

theorem burnToNow_frame (s : SpectatorState) (now : ℤ) :
    (burnToNow s now).draftSequence = s.draftSequence ∧
    (burnToNow s now).currentTurn = s.currentTurn ∧
    (burnToNow s now).picks = s.picks ∧
    (burnToNow s now).blueLocked = s.blueLocked ∧
    (burnToNow s now).redLocked = s.redLocked ∧
    (burnToNow s now).timerEnabled = s.timerEnabled := by
  unfold burnToNow
  simp only []
  split
  · exact ⟨rfl, rfl, rfl, rfl, rfl, rfl⟩
  split
  · exact ⟨rfl, rfl, rfl, rfl, rfl, rfl⟩
  split
  · exact ⟨rfl, rfl, rfl, rfl, rfl, rfl⟩
  · exact ⟨rfl, rfl, rfl, rfl, rfl, rfl⟩

theorem resetGrace_frame (s : SpectatorState) (now : ℤ) :
    (resetGraceForNewTurn s now).draftSequence = s.draftSequence ∧
    (resetGraceForNewTurn s now).currentTurn = s.currentTurn ∧
    (resetGraceForNewTurn s now).picks = s.picks ∧
    (resetGraceForNewTurn s now).blueLocked = s.blueLocked ∧
    (resetGraceForNewTurn s now).redLocked = s.redLocked ∧
    (resetGraceForNewTurn s now).graceLeft = some MOVE_GRACE :=
  ⟨rfl, rfl, rfl, rfl, rfl, rfl⟩

theorem resetGrace_reserveLeft (s : SpectatorState) (now : ℤ) (p : ℚ × ℚ)
    (h : s.reserveLeft = some p) :
    (resetGraceForNewTurn s now).reserveLeft = some p := by
  unfold resetGraceForNewTurn initTimerFields
  simp [h]

theorem initTimerFields_id (s : SpectatorState) (now : ℤ) (rs : ℚ)
    (p : Bool × Bool) (rl : ℚ × ℚ) (g : ℚ) (t : ℤ)
    (hrs : s.reserveSeconds = some rs) (hp : s.paused = some p)
    (hrl : s.reserveLeft = some rl) (hgl : s.graceLeft = some g)
    (ht : s.timerUpdatedAt = some t) :
    initTimerFields s now = s := by
  unfold initTimerFields
  cases s
  simp_all

/-- Claim C1: on a session with the timer enabled and all timer fields
initialized (non-negative exact-millisecond values and a non-zero
checkpoint), a single burn from the checkpoint to `now` behaves exactly as
the specification's burn algorithm `specTimerBurn`: skip accrual for a
sideless token, a paused active side, or a first ban slot, and otherwise
drain `min(dt, graceLeft)` from grace and the rest from the active side's
reserve floored at zero, leaving the other reserve unchanged and setting the
checkpoint to `now`. -/
theorem burnToNow_matches_spec (s : SpectatorState) (now t : ℤ) (b r g rs : ℚ)
    (p : Bool × Bool)
    (hte : s.timerEnabled = true)
    (hrs : s.reserveSeconds = some rs)
    (hrl : s.reserveLeft = some (b, r))
    (hgl : s.graceLeft = some g)
    (hp : s.paused = some p)
    (ht : s.timerUpdatedAt = some t)
    (ht0 : t ≠ 0)
    (hb0 : 0 ≤ b) (hr0 : 0 ≤ r) (hg0 : 0 ≤ g)
    (hb3 : Dec3 b) (hr3 : Dec3 r) (hg3 : Dec3 g) :
    burnToNow s now = specTimerBurn s now := by
  have hinit : initTimerFields s now = s :=
    initTimerFields_id s now rs p (b, r) g t hrs hp hrl hgl ht
  unfold burnToNow specTimerBurn
  simp only []
  rw [hinit, hte, hrl, hgl, hp, ht]
  simp only [Option.getD_some, Bool.not_true, Bool.false_eq_true, if_false, if_neg ht0]
  cases hside : sideOfTok (s.draftSequence.getD s.currentTurn "") with
  | none => rfl
  | some sd =>
    dsimp only
    by_cases hskip :
        (pausedFor p sd || isFirstBanForSide s.currentTurn s.draftSequence) = true
    · rw [if_pos hskip, if_pos hskip]
    · rw [if_neg hskip, if_neg hskip]
      set dt : ℚ := max 0 (((now - t : ℤ) : ℚ) / 1000) with hdt
      have hdt3 : Dec3 dt := Dec3.max Dec3.zero (Dec3.divMs (now - t))
      have hdtpos : 0 ≤ dt := le_max_left 0 _
      have hmg : max 0 g = g := max_eq_right hg0
      have hmb : max 0 b = b := max_eq_right hb0
      have hmr : max 0 r = r := max_eq_right hr0
      rw [hmg, hmb, hmr]
      have hA0 : 0 ≤ dt - min g dt := by
        have : min g dt ≤ dt := min_le_right g dt
        linarith
      have hA3 : Dec3 (dt - min g dt) := hdt3.sub (hg3.min hdt3)
      have hAeq : dt - min g dt = dt - min dt g := by rw [min_comm]
      have hgr3 : Dec3 (g - min g dt) := hg3.sub (hg3.min hdt3)
      cases sd
      · dsimp only
        congr 1
        · by_cases hlt : 0 < dt - min g dt
          · simp only [if_pos hlt]
            rw [fix3_eq_self (Dec3.zero.max (hb3.sub hA3)), fix3_eq_self hr3, hAeq]
          · have hz : dt - min g dt = 0 := le_antisymm (not_lt.mp hlt) hA0
            simp only [if_neg hlt]
            rw [fix3_eq_self hb3, fix3_eq_self hr3, ← hAeq, hz, sub_zero, hmb]
        · rw [fix3_eq_self hgr3, min_comm]
      · dsimp only
        congr 1
        · by_cases hlt : 0 < dt - min g dt
          · simp only [if_pos hlt]
            rw [fix3_eq_self hb3, fix3_eq_self (Dec3.zero.max (hr3.sub hA3)), hAeq]
          · have hz : dt - min g dt = 0 := le_antisymm (not_lt.mp hlt) hA0
            simp only [if_neg hlt]
            rw [fix3_eq_self hb3, fix3_eq_self hr3, ← hAeq, hz, sub_zero, hmr]
        · rw [fix3_eq_self hgr3, min_comm]

theorem burnToNow_matches_spec_witness :
    stScenario.timerEnabled = true ∧ (10000 : ℤ) ≠ 0 ∧
    burnToNow stScenario 45000 = specTimerBurn stScenario 45000 :=
  ⟨rfl, by decide,
    burnToNow_matches_spec stScenario 45000 10000 180 180 30 180 (false, false)
      rfl rfl rfl rfl rfl rfl (by decide) (by norm_num) (by norm_num) (by norm_num)
      ⟨180000, by norm_num⟩ ⟨180000, by norm_num⟩ ⟨30000, by norm_num⟩⟩

/-- Counterexample to claim C2: in `stScenario` the code c1 sits only in
Blue's ban slot 0 (no pick slot of Blue holds it), yet Blue's pick of c1 at
index 2 is rejected as already picked — in both the HSR and the ZZZ
reducers. The ban-slot tokens BB/RR start with the side letter, so both
variants' duplicate checks include ban slots. -/
theorem pick_rejected_from_ban_slot_cx :
    hsrReduce stScenario (featuredListsOf []) Side.B pickC1Req 10000 =
      Except.error "Character already picked by this side" ∧
    zzzReduce zzzStScenario (featuredListsOf []) Side.B pickC1Req =
      Except.error "Character already picked by this side" ∧
    isBanTok (stScenario.draftSequence.getD 0 "") = true ∧
    stScenario.picks.getD 0 none =
      some { characterCode := "c1", eidolon := 0, lightconeId := none,
             superimpose := 1 } ∧
    stScenario.picks.getD 2 none = none ∧
    stScenario.picks.getD 4 none = none ∧
    mySideCodes stScenario Side.B = ["c1"] := by
  refine ⟨?_, ?_, by decide, by decide, by decide, by decide, by decide⟩
  · norm_num +decide [hsrReduce, hsrOpAlias, checkIndex, burnToNow, initTimerFields,
      isFirstBanForSide, sideOfTok, isBanTok, strStartsWith, pausedFor, MOVE_GRACE,
      fix3, hsrPick, sideLocked, mySideCodes, sideStr, stScenario, pickC1Req,
      emptyReq, featuredListsOf, List.isPrefixOf, List.range, List.all]
  · norm_num +decide [zzzReduce, checkIndex, zzzPick, zzzSideLocked, zzzMySideCodes,
      sideStr, zzzStScenario, pickC1Req, emptyReq, featuredListsOf, sideOfTok,
      isBanTok, strStartsWith, List.isPrefixOf]

/-- Claim C2 amended: in both draft variants the already-picked check ranges
over every non-empty slot whose turn token starts with the requesting side's
letter — ban slots (BB / RR) included, since their tokens start with the
side letter — and, when the earlier pick guards pass, the pick is rejected
as already picked exactly when the requested code is in that set. -/
theorem mySideCodes_spec :
    (∀ (st : SpectatorState) (side : Side) (c : String),
      c ∈ mySideCodes st side ↔
      ∃ i, i < st.picks.length ∧
        strStartsWith (st.draftSequence.getD i "") (sideStr side) = true ∧
        ∃ pk, st.picks.getD i none = some pk ∧ pk.characterCode = c) ∧
    (∀ (st : ZzzState) (side : Side) (c : String),
      c ∈ zzzMySideCodes st side ↔
      ∃ i, i < st.picks.length ∧
        strStartsWith (st.draftSequence.getD i "") (sideStr side) = true ∧
        ∃ pk, st.picks.getD i none = some pk ∧ pk.characterCode = c) ∧
    (∀ (st : SpectatorState) (fl : FeaturedLists) (side : Side) (idx : ℕ)
        (code : String) (now : ℤ),
      sideLocked st side = false →
      idx = st.currentTurn →
      isBanTok (st.draftSequence.getD idx "") = false →
      sideOfTok (st.draftSequence.getD idx "") = some side →
      code ≠ "" →
      fl.characterGlobalBan.contains code = false →
      (hsrPick st fl side idx (some code) now =
          Except.error "Character already picked by this side" ↔
        (mySideCodes st side).contains code = true)) := by
  refine ⟨?_, ?_, ?_⟩
  · intro st side c
    constructor
    · intro h
      simp only [mySideCodes, List.mem_filterMap] at h
      obtain ⟨⟨i, p?⟩, hmem, hf⟩ := h
      rw [List.mem_enum_iff_getElem?] at hmem
      have hi : i < st.picks.length := by
        rcases List.getElem?_eq_some.mp hmem with ⟨hlt, _⟩
        exact hlt
      by_cases hc : strStartsWith (st.draftSequence.getD i "") (sideStr side) = true
      · rw [if_pos hc] at hf
        obtain ⟨pk, hpk, hcode⟩ := Option.map_eq_some'.mp hf
        refine ⟨i, hi, hc, pk, ?_, hcode⟩
        rw [List.getD_eq_getElem?_getD, hmem, Option.getD_some, hpk]
      · rw [if_neg hc] at hf
        exact absurd hf (by simp)
    · rintro ⟨i, hi, hcond, pk, hpk, hc⟩
      simp only [mySideCodes, List.mem_filterMap]
      refine ⟨(i, some pk), ?_, ?_⟩
      · rw [List.mem_enum_iff_getElem?, List.getElem?_eq_getElem hi]
        have : st.picks.getD i none = st.picks[i] := by
          rw [List.getD_eq_getElem?_getD, List.getElem?_eq_getElem hi, Option.getD_some]
        rw [← this, hpk]
      · simp only [if_pos hcond, Option.map_some', hc]
  · intro st side c
    constructor
    · intro h
      simp only [zzzMySideCodes, List.mem_filterMap] at h
      obtain ⟨⟨i, p?⟩, hmem, hf⟩ := h
      rw [List.mem_enum_iff_getElem?] at hmem
      have hi : i < st.picks.length := by
        rcases List.getElem?_eq_some.mp hmem with ⟨hlt, _⟩
        exact hlt
      by_cases hc : strStartsWith (st.draftSequence.getD i "") (sideStr side) = true
      · rw [if_pos hc] at hf
        obtain ⟨pk, hpk, hcode⟩ := Option.map_eq_some'.mp hf
        refine ⟨i, hi, hc, pk, ?_, hcode⟩
        rw [List.getD_eq_getElem?_getD, hmem, Option.getD_some, hpk]
      · rw [if_neg hc] at hf
        exact absurd hf (by simp)
    · rintro ⟨i, hi, hcond, pk, hpk, hc⟩
      simp only [zzzMySideCodes, List.mem_filterMap]
      refine ⟨(i, some pk), ?_, ?_⟩
      · rw [List.mem_enum_iff_getElem?, List.getElem?_eq_getElem hi]
        have : st.picks.getD i none = st.picks[i] := by
          rw [List.getD_eq_getElem?_getD, List.getElem?_eq_getElem hi, Option.getD_some]
        rw [← this, hpk]
      · simp only [if_pos hcond, Option.map_some', hc]
  · intro st fl side idx code now hlock hturn hban hside hcode hglob
    subst hturn
    unfold hsrPick
    dsimp only
    have h1 : ¬(sideLocked st side = true) := by rw [hlock]; decide
    have h2 : ¬(st.currentTurn ≠ st.currentTurn) := by simp
    have h3 : ¬(isBanTok (st.draftSequence.getD st.currentTurn "") = true) := by
      rw [hban]; decide
    have h4 : ¬(sideOfTok (st.draftSequence.getD st.currentTurn "") ≠ some side) := by
      rw [hside]; simp
    have h6 : ¬(fl.characterGlobalBan.contains code = true) := by rw [hglob]; decide
    rw [if_neg h1, if_neg h2, if_neg h3, if_neg h4, if_neg hcode, if_neg h6]
    by_cases hmem : (mySideCodes st side).contains code = true
    · rw [if_pos hmem]
      simp only [hmem, iff_true]
    · rw [if_neg hmem]
      constructor
      · intro h
        exact absurd h (by simp)
      · intro h
        exact absurd h hmem

theorem mySideCodes_spec_witness :
    hsrPick stScenario (featuredListsOf []) Side.B 2 (some "c1") 10000 =
      Except.error "Character already picked by this side" :=
  (mySideCodes_spec.2.2 stScenario (featuredListsOf []) Side.B 2 "c1" 10000
    (by decide) (by decide) (by decide) (by decide) (by decide) (by decide)).mpr
    (by decide)

theorem Inv_burn (s : SpectatorState) (now : ℤ) (h : Inv s) :
    Inv (burnToNow s now) := by
  obtain ⟨hds, hct, hpk, _, _, _⟩ := burnToNow_frame s now
  unfold Inv at h ⊢
  rw [hds, hct, hpk]
  exact h

theorem Inv_reset (s : SpectatorState) (now : ℤ) (h : Inv s) :
    Inv (resetGraceForNewTurn s now) := by
  obtain ⟨hds, hct, hpk, _, _, _⟩ := resetGrace_frame s now
  unfold Inv at h ⊢
  rw [hds, hct, hpk]
  exact h

theorem Inv_fill (st : SpectatorState) (slot : ServerPick)
    (hlt : st.currentTurn < st.draftSequence.length) (hInv : Inv st) :
    Inv { st with
      picks := st.picks.set st.currentTurn (some slot),
      currentTurn := min (st.currentTurn + 1) st.draftSequence.length } := by
  obtain ⟨hct, hlen, hiff⟩ := hInv
  refine ⟨min_le_right _ _, by simp only [List.length_set]; exact hlen, ?_⟩
  intro i hi
  simp only [List.length_set] at hi
  by_cases he : i = st.currentTurn
  · subst he
    rw [getD_set_self _ _ _ _ (by rw [hlen]; exact hlt)]
    simp only [Option.isSome_some, true_iff]
    try dsimp only
    omega
  · rw [getD_set_ne _ _ _ _ _ (fun e => he e.symm), hiff i hi]
    try dsimp only
    omega

theorem Inv_unfill (st : SpectatorState)
    (_hpos : st.currentTurn ≠ 0) (hInv : Inv st) :
    Inv { st with
      picks := st.picks.set (st.currentTurn - 1) none,
      currentTurn := st.currentTurn - 1 } := by
  obtain ⟨hct, hlen, hiff⟩ := hInv
  refine ⟨?_, by simp only [List.length_set]; exact hlen, ?_⟩
  · try dsimp only
    omega
  intro i hi
  simp only [List.length_set] at hi
  by_cases he : i = st.currentTurn - 1
  · subst he
    rw [getD_set_self _ _ _ _ hi]
    simp only [Option.isSome_none, Bool.false_eq_true, false_iff]
    try dsimp only
    omega
  · rw [getD_set_ne _ _ _ _ _ (fun e => he e.symm), hiff i hi]
    try dsimp only
    omega

theorem Inv_replace (st : SpectatorState) (idx : ℕ) (slot' : ServerPick)
    (hsome : (st.picks.getD idx none).isSome = true) (hInv : Inv st) :
    Inv { st with picks := st.picks.set idx (some slot') } := by
  obtain ⟨hct, hlen, hiff⟩ := hInv
  have hidx : idx < st.picks.length := by
    by_contra hge
    rw [List.getD_eq_default _ _ (Nat.le_of_not_lt hge)] at hsome
    simp at hsome
  refine ⟨hct, by simp only [List.length_set]; exact hlen, ?_⟩
  intro i hi
  simp only [List.length_set] at hi
  by_cases he : i = idx
  · subst he
    rw [getD_set_self _ _ _ _ hi]
    simp only [Option.isSome_some, true_iff]
    exact (hiff i hi).mp hsome
  · rw [getD_set_ne _ _ _ _ _ (fun e => he e.symm)]
    exact hiff i hi

theorem checkIndex_ok (idx? : Option ℤ) (len : ℕ) (i : ℕ)
    (h : checkIndex idx? len = Except.ok i) : i < len := by
  unfold checkIndex at h
  match idx? with
  | none => exact absurd h (by simp)
  | some j =>
    simp only at h
    split at h
    · exact absurd h (by simp)
    split at h
    · exact absurd h (by simp)
    rename_i hneg hlt
    simp only [Except.ok.injEq] at h
    subst h
    omega

theorem isSome_set_some {α : Type} (l : List (Option α)) (idx : ℕ) (v : α)
    (hsome : (l.getD idx none).isSome = true) :
    ∀ i, ((l.set idx (some v)).getD i none).isSome = (l.getD i none).isSome := by
  intro i
  by_cases he : i = idx
  · subst he
    by_cases hlt : i < l.length
    · rw [getD_set_self _ _ _ _ hlt, hsome]
      rfl
    · rw [List.getD_eq_default _ _ (Nat.le_of_not_lt hlt)] at hsome
      simp at hsome
  · rw [getD_set_ne _ _ _ _ _ (fun e => he e.symm)]

theorem hsrPick_ok (st : SpectatorState) (fl : FeaturedLists) (side : Side)
    (idx : ℕ) (code? : Option String) (now : ℤ) (st' : SpectatorState)
    (h : hsrPick st fl side idx code? now = Except.ok st') :
    sideLocked st side = false ∧ idx = st.currentTurn ∧
    sideOfTok (st.draftSequence.getD idx "") = some side ∧
    isBanTok (st.draftSequence.getD idx "") = false ∧
    ∃ code, code? = some code ∧ code ≠ "" ∧
      (mySideCodes st side).contains code = false ∧
      st' = resetGraceForNewTurn
        { st with
            picks := st.picks.set idx (some
              { characterCode := code, eidolon := 0, lightconeId := none,
                superimpose := 1 }),
            currentTurn := min (st.currentTurn + 1) st.draftSequence.length } now := by
  rcases code? with _ | code
  · exfalso
    unfold hsrPick at h
    dsimp only at h
    repeat' split at h
    all_goals simp at h
  · unfold hsrPick at h
    dsimp only at h
    split at h
    · exact absurd h (by simp)
    rename_i h1
    split at h
    · exact absurd h (by simp)
    rename_i h2
    split at h
    · exact absurd h (by simp)
    rename_i h3
    split at h
    · exact absurd h (by simp)
    rename_i h4
    split at h
    · exact absurd h (by simp)
    rename_i h5
    split at h
    · exact absurd h (by simp)
    rename_i h6
    split at h
    · exact absurd h (by simp)
    rename_i h7
    simp only [Except.ok.injEq] at h
    exact ⟨by simpa using h1, not_ne_iff.mp h2, not_ne_iff.mp h4, by simpa using h3,
      code, rfl, h5, by simpa using h7, h.symm⟩

theorem hsrBan_ok (st : SpectatorState) (fl : FeaturedLists) (side : Side)
    (idx : ℕ) (code? : Option String) (now : ℤ) (st' : SpectatorState)
    (h : hsrBan st fl side idx code? now = Except.ok st') :
    sideLocked st side = false ∧ idx = st.currentTurn ∧
    sideOfTok (st.draftSequence.getD idx "") = some side ∧
    isBanTok (st.draftSequence.getD idx "") = true ∧
    ∃ code, code? = some code ∧ code ≠ "" ∧
      st' = resetGraceForNewTurn
        { st with
            picks := st.picks.set idx (some
              { characterCode := code, eidolon := 0, lightconeId := none,
                superimpose := 1 }),
            currentTurn := min (st.currentTurn + 1) st.draftSequence.length } now := by
  rcases code? with _ | code
  · exfalso
    unfold hsrBan at h
    dsimp only at h
    repeat' split at h
    all_goals simp at h
  · unfold hsrBan at h
    dsimp only at h
    split at h
    · exact absurd h (by simp)
    rename_i h1
    split at h
    · exact absurd h (by simp)
    rename_i h2
    split at h
    · exact absurd h (by simp)
    rename_i h3
    split at h
    · exact absurd h (by simp)
    rename_i h4
    split at h
    · exact absurd h (by simp)
    rename_i h5
    split at h
    · exact absurd h (by simp)
    rename_i h6
    simp only [Except.ok.injEq] at h
    exact ⟨by simpa using h1, not_ne_iff.mp h2, not_ne_iff.mp h4,
      by simpa using h3, code, rfl, h5, h.symm⟩

theorem hsrSetEidolon_ok (st : SpectatorState) (side : Side) (idx : ℕ)
    (eid? : Option ℚ) (st' : SpectatorState)
    (h : hsrSetEidolon st side idx eid? = Except.ok st') :
    ∃ slot, st.picks.getD idx none = some slot ∧
      st' = { st with picks := st.picks.set idx (some
        { slot with eidolon := max 0 (min 6 (eid?.getD 0)) }) } := by
  unfold hsrSetEidolon at h
  dsimp only at h
  split at h
  · exact absurd h (by simp)
  split at h
  · exact absurd h (by simp)
  split at h
  · exact absurd h (by simp)
  rename_i slot hslot
  simp only [Except.ok.injEq] at h
  exact ⟨slot, hslot, h.symm⟩

theorem hsrSetSuperimpose_ok (st : SpectatorState) (side : Side) (idx : ℕ)
    (sup? : Option ℚ) (st' : SpectatorState)
    (h : hsrSetSuperimpose st side idx sup? = Except.ok st') :
    ∃ slot, st.picks.getD idx none = some slot ∧
      st' = { st with picks := st.picks.set idx (some
        { slot with superimpose := max 1 (min 5 (sup?.getD 1)) }) } := by
  unfold hsrSetSuperimpose at h
  dsimp only at h
  split at h
  · exact absurd h (by simp)
  split at h
  · exact absurd h (by simp)
  split at h
  · exact absurd h (by simp)
  rename_i slot hslot
  simp only [Except.ok.injEq] at h
  exact ⟨slot, hslot, h.symm⟩

theorem hsrSetLightcone_ok (st : SpectatorState) (fl : FeaturedLists)
    (side : Side) (idx : ℕ) (lc? : Option String) (st' : SpectatorState)
    (h : hsrSetLightcone st fl side idx lc? = Except.ok st') :
    ∃ slot lc, st.picks.getD idx none = some slot ∧
      st' = { st with picks := st.picks.set idx (some
        { slot with lightconeId := lc }) } := by
  unfold hsrSetLightcone at h
  dsimp only at h
  split at h
  · exact absurd h (by simp)
  split at h
  · exact absurd h (by simp)
  split at h
  · exact absurd h (by simp)
  rename_i slot hslot
  split at h
  · rename_i l
    split at h
    · exact absurd h (by simp)
    simp only [Except.ok.injEq] at h
    exact ⟨slot, _, hslot, h.symm⟩
  · simp only [Except.ok.injEq] at h
    exact ⟨slot, none, hslot, h.symm⟩

theorem hsrSetLock_ok (st : SpectatorState) (side : Side)
    (locked? : Option Bool) (st' : SpectatorState)
    (h : hsrSetLock st side locked? = Except.ok st') :
    locked? = some true ∧ st.draftSequence.length ≤ st.currentTurn ∧
    st'.picks = st.picks ∧ st'.currentTurn = st.currentTurn ∧
    st'.draftSequence = st.draftSequence := by
  unfold hsrSetLock at h
  rcases locked? with _ | b
  · exact absurd h (by simp)
  · rcases b
    · exact absurd h (by simp)
    · dsimp only at h
      split at h
      · exact absurd h (by simp)
      rename_i hcmp
      simp only [Except.ok.injEq] at h
      cases side <;> dsimp only at h <;>
        exact ⟨rfl, Nat.le_of_not_lt hcmp, by rw [← h], by rw [← h], by rw [← h]⟩

theorem hsrUndoLast_ok (st : SpectatorState) (side : Side) (idx? : Option ℤ)
    (now : ℤ) (st' : SpectatorState)
    (h : hsrUndoLast st side idx? now = Except.ok st') :
    st.currentTurn ≠ 0 ∧ sideLocked st side = false ∧
    sideOfTok (st.draftSequence.getD (st.currentTurn - 1) "") = some side ∧
    (st.picks.getD (st.currentTurn - 1) none).isSome = true ∧
    st' = resetGraceForNewTurn
      { st with picks := st.picks.set (st.currentTurn - 1) none,
                currentTurn := st.currentTurn - 1 } now := by
  unfold hsrUndoLast at h
  dsimp only at h
  split at h
  · exact absurd h (by simp)
  rename_i h0
  split at h
  · exact absurd h (by simp)
  rename_i h1
  split at h
  · exact absurd h (by simp)
  rename_i h2
  split at h
  · exact absurd h (by simp)
  rename_i h3
  split at h
  · exact absurd h (by simp)
  rename_i slot hslot
  simp only [Except.ok.injEq] at h
  exact ⟨h0, by simpa using h2, not_ne_iff.mp h3, by rw [hslot]; rfl, h.symm⟩

theorem hsrReduce_inv_frame (st0 : SpectatorState) (fl : FeaturedLists)
    (side : Side) (req : ActionReq) (now : ℤ) (st' : SpectatorState)
    (hInv : Inv st0)
    (h : hsrReduce st0 fl side req now = Except.ok st') :
    Inv st' ∧
    ((hsrOpAlias req.op = "setEidolon" ∨ hsrOpAlias req.op = "setSuperimpose" ∨
        hsrOpAlias req.op = "setLightcone" ∨ hsrOpAlias req.op = "setLock") →
      st'.currentTurn = st0.currentTurn ∧
      ∀ i, (st'.picks.getD i none).isSome = (st0.picks.getD i none).isSome) := by
  obtain ⟨hds, hct, hpk, _, _, _⟩ := burnToNow_frame st0 now
  have hburn : Inv (burnToNow st0 now) := Inv_burn st0 now hInv
  unfold hsrReduce at h
  dsimp only at h
  split at h
  · -- indexed ops
    split at h
    · exact absurd h (by simp)
    rename_i idx hchk
    have hidx : idx < (burnToNow st0 now).draftSequence.length :=
      checkIndex_ok _ _ _ hchk
    split at h
    · -- pick
      rename_i hop
      obtain ⟨_, hturn, _, _, code, _, _, _, hst⟩ := hsrPick_ok _ _ _ _ _ _ _ h
      subst hturn
      subst hst
      refine ⟨Inv_reset _ _ (Inv_fill _ _ hidx hburn), ?_⟩
      have hopeq := eq_of_beq hop
      rintro (hs | hs | hs | hs) <;>
        exact absurd (hopeq.symm.trans hs) (by decide)
    split at h
    · -- ban
      rename_i hop
      obtain ⟨_, hturn, _, _, code, _, _, hst⟩ := hsrBan_ok _ _ _ _ _ _ _ h
      subst hturn
      subst hst
      refine ⟨Inv_reset _ _ (Inv_fill _ _ hidx hburn), ?_⟩
      have hopeq := eq_of_beq hop
      rintro (hs | hs | hs | hs) <;>
        exact absurd (hopeq.symm.trans hs) (by decide)
    split at h
    · -- setEidolon
      obtain ⟨slot, hslot, hst⟩ := hsrSetEidolon_ok _ _ _ _ _ h
      subst hst
      have hsome : ((burnToNow st0 now).picks.getD idx none).isSome = true := by
        rw [hslot]; rfl
      refine ⟨Inv_replace _ _ _ hsome hburn, fun _ => ⟨hct, ?_⟩⟩
      intro i
      dsimp only
      rw [isSome_set_some _ _ _ hsome i, hpk]
    split at h
    · -- setSuperimpose
      obtain ⟨slot, hslot, hst⟩ := hsrSetSuperimpose_ok _ _ _ _ _ h
      subst hst
      have hsome : ((burnToNow st0 now).picks.getD idx none).isSome = true := by
        rw [hslot]; rfl
      refine ⟨Inv_replace _ _ _ hsome hburn, fun _ => ⟨hct, ?_⟩⟩
      intro i
      dsimp only
      rw [isSome_set_some _ _ _ hsome i, hpk]
    · -- setLightcone
      obtain ⟨slot, lc, hslot, hst⟩ := hsrSetLightcone_ok _ _ _ _ _ _ h
      subst hst
      have hsome : ((burnToNow st0 now).picks.getD idx none).isSome = true := by
        rw [hslot]; rfl
      refine ⟨Inv_replace _ _ _ hsome hburn, fun _ => ⟨hct, ?_⟩⟩
      intro i
      dsimp only
      rw [isSome_set_some _ _ _ hsome i, hpk]
  · split at h
    · -- setLock
      obtain ⟨_, hlen, hpk', hct', hds'⟩ := hsrSetLock_ok _ _ _ _ h
      obtain ⟨h1, h2, h3⟩ := hburn
      refine ⟨⟨?_, ?_, ?_⟩, fun _ => ⟨hct'.trans hct, ?_⟩⟩
      · rw [hct', hds']; exact h1
      · rw [hpk', hds']; exact h2
      · intro i hi
        rw [hpk'] at hi ⊢
        rw [hct']
        exact h3 i hi
      · intro i
        rw [hpk', hpk]
    split at h
    · -- undoLast
      rename_i hop
      obtain ⟨hpos, _, _, _, hst⟩ := hsrUndoLast_ok _ _ _ _ _ h
      subst hst
      refine ⟨Inv_reset _ _ (Inv_unfill _ hpos hburn), ?_⟩
      have hopeq := eq_of_beq hop
      rintro (hs | hs | hs | hs) <;>
        exact absurd (hopeq.symm.trans hs) (by decide)
    · exact absurd h (by simp)

/-- Claim C3: every player action accepted by the HSR action endpoint
preserves the invariant that `picks[i]` is non-empty exactly for `i <
currentTurn` (with `currentTurn` in range), and the setter ops (setEidolon,
setSuperimpose, setLightcone, setLock) never change slot emptiness or the
value of `currentTurn`. -/
theorem action_preserves_slot_invariant (row : HsrRow) (req : ActionReq)
    (pt : String) (now : ℤ) (row' : HsrRow) (ev : List String)
    (hInv : Inv row.state)
    (h : hsrHandleAction row req pt now = (row', ev, none)) :
    Inv row'.state ∧
    ((hsrOpAlias req.op = "setEidolon" ∨ hsrOpAlias req.op = "setSuperimpose" ∨
        hsrOpAlias req.op = "setLightcone" ∨ hsrOpAlias req.op = "setLock") →
      row'.state.currentTurn = row.state.currentTurn ∧
      ∀ i, (row'.state.picks.getD i none).isSome =
        (row.state.picks.getD i none).isSome) := by
  unfold hsrHandleAction at h
  split at h
  · simp at h
  split at h
  · simp at h
  split at h
  · simp at h
  split at h
  · simp at h
  split at h
  · simp at h
  rename_i hred
  simp only [Prod.mk.injEq] at h
  obtain ⟨hrow, _, _⟩ := h
  subst hrow
  exact hsrReduce_inv_frame _ _ _ _ _ _ hInv hred

theorem action_preserves_slot_invariant_witness :
    Inv rowTiny.state ∧ Inv rowTinyAfter.state :=
  ⟨by unfold Inv; decide,
    (action_preserves_slot_invariant rowTiny pickTinyReq "b" 0 rowTinyAfter
      ["update"] (by unfold Inv; decide) (by decide)).1⟩

/-- Claim C6: every rejected player action persists nothing — the row comes
back unchanged and no broadcast event is emitted — in both variants: each
rejection path in the handlers returns before the UPDATE and the push. -/
theorem rejected_action_no_persist :
    (∀ (row : HsrRow) (req : ActionReq) (pt : String) (now : ℤ)
        (row' : HsrRow) (ev : List String) (e : String),
      hsrHandleAction row req pt now = (row', ev, some e) →
      row' = row ∧ ev = []) ∧
    (∀ (row : ZzzRow) (req : ActionReq) (pt : String) (now : ℤ)
        (row' : ZzzRow) (ev : List String) (e : String),
      zzzHandleAction row req pt now = (row', ev, some e) →
      row' = row ∧ ev = []) := by
  constructor
  · intro row req pt now row' ev e h
    unfold hsrHandleAction at h
    split at h
    · simp only [Prod.mk.injEq] at h
      exact ⟨h.1.symm, h.2.1.symm⟩
    split at h
    · simp only [Prod.mk.injEq] at h
      exact ⟨h.1.symm, h.2.1.symm⟩
    split at h
    · simp only [Prod.mk.injEq] at h
      exact ⟨h.1.symm, h.2.1.symm⟩
    · split at h
      · simp only [Prod.mk.injEq] at h
        exact ⟨h.1.symm, h.2.1.symm⟩
      split at h
      · simp only [Prod.mk.injEq] at h
        exact ⟨h.1.symm, h.2.1.symm⟩
      · simp at h
  · intro row req pt now row' ev e h
    unfold zzzHandleAction at h
    split at h
    · simp only [Prod.mk.injEq] at h
      exact ⟨h.1.symm, h.2.1.symm⟩
    split at h
    · simp only [Prod.mk.injEq] at h
      exact ⟨h.1.symm, h.2.1.symm⟩
    split at h
    · simp only [Prod.mk.injEq] at h
      exact ⟨h.1.symm, h.2.1.symm⟩
    · split at h
      · simp only [Prod.mk.injEq] at h
        exact ⟨h.1.symm, h.2.1.symm⟩
      split at h
      · simp only [Prod.mk.injEq] at h
        exact ⟨h.1.symm, h.2.1.symm⟩
      · simp at h

theorem rejected_action_no_persist_witness :
    hsrHandleAction rowScenario pickC3Req "badToken" 10000 =
      (rowScenario, [], some "Invalid player token") ∧
    rowScenario = rowScenario ∧ ([] : List String) = [] :=
  ⟨by decide,
    rejected_action_no_persist.1 rowScenario pickC3Req "badToken" 10000
      rowScenario [] "Invalid player token" (by decide)⟩

/-- Counterexample to claim C4: the owner PUT writes `COALESCE(body, column)`
for is_complete, so an update that supplies isComplete = false flips a
completed session back to incomplete — is_complete is not monotone. -/
theorem isComplete_not_monotone_cx :
    rowComplete.is_complete = true ∧
    (hsrOwnerUpdate rowComplete "owner1" bodyUncomplete 9000
        (fun _ => false)).1.is_complete = false ∧
    (hsrOwnerUpdate rowComplete "owner1" bodyUncomplete 9000
        (fun _ => false)).2.1.ok = true := by
  refine ⟨rfl, ?_, ?_⟩ <;> decide

/-- Claim C4 amended: completed_at, once set, is never modified by any owner
update and is first set exactly by an owner update supplying
isComplete = true; player actions never change is_complete or completed_at;
and is_complete stays true across any owner update that does not explicitly
supply isComplete = false (supplying false un-completes the session, so full
monotonicity fails). The same completed_at behavior holds in the ZZZ
variant. -/
theorem completedAt_set_once :
    (∀ (row : HsrRow) (v : String) (body : UpdateBody) (now : ℤ)
        (owns : String → Bool) (t : ℤ), row.completed_at = some t →
      (hsrOwnerUpdate row v body now owns).1.completed_at = some t) ∧
    (∀ (row : HsrRow) (v : String) (body : UpdateBody) (now : ℤ)
        (owns : String → Bool), row.owner_user_id = v →
      row.completed_at = none →
      ((hsrOwnerUpdate row v body now owns).1.completed_at = some now ↔
        body.isComplete = some true)) ∧
    (∀ (row : HsrRow) (v : String) (body : UpdateBody) (now : ℤ)
        (owns : String → Bool), row.is_complete = true →
      body.isComplete ≠ some false →
      (hsrOwnerUpdate row v body now owns).1.is_complete = true) ∧
    (∀ (row : HsrRow) (req : ActionReq) (pt : String) (now : ℤ),
      (hsrHandleAction row req pt now).1.is_complete = row.is_complete ∧
      (hsrHandleAction row req pt now).1.completed_at = row.completed_at) ∧
    (∀ (row : ZzzRow) (v : String) (hs : Bool) (st? : Option ZzzState)
        (ic? : Option Bool) (f? : Option (List FeaturedItem)) (now : ℤ)
        (t : ℤ), row.completed_at = some t →
      (zzzOwnerUpdate row v hs st? ic? f? now).1.completed_at = some t) ∧
    (∀ (row : ZzzRow) (v : String) (hs : Bool) (st? : Option ZzzState)
        (ic? : Option Bool) (f? : Option (List FeaturedItem)) (now : ℤ),
      row.owner_user_id = v → row.completed_at = none →
      ((zzzOwnerUpdate row v hs st? ic? f? now).1.completed_at = some now ↔
        ic? = some true)) := by
  refine ⟨?_, ?_, ?_, ?_, ?_, ?_⟩
  · intro row v body now owns t hc
    unfold hsrOwnerUpdate
    split
    · exact hc
    · dsimp only
      rw [if_neg (fun hcon => by rw [hc] at hcon; exact absurd hcon.2 (by simp))]
      exact hc
  · intro row v body now owns hown hnone
    unfold hsrOwnerUpdate
    rw [if_neg (not_ne_iff.mpr hown)]
    dsimp only
    constructor
    · intro h
      by_cases hic : body.isComplete = some true
      · exact hic
      · rw [if_neg (fun hcon => hic hcon.1), hnone] at h
        cases h
    · intro hic
      rw [if_pos ⟨hic, hnone⟩]
  · intro row v body now owns hcomp hnf
    unfold hsrOwnerUpdate
    split
    · exact hcomp
    · dsimp only
      match hic : body.isComplete with
      | none => simp [hcomp]
      | some true => rfl
      | some false => exact absurd hic hnf
  · intro row req pt now
    unfold hsrHandleAction
    split
    · exact ⟨rfl, rfl⟩
    split
    · exact ⟨rfl, rfl⟩
    split
    · exact ⟨rfl, rfl⟩
    · split
      · exact ⟨rfl, rfl⟩
      split
      · exact ⟨rfl, rfl⟩
      · exact ⟨rfl, rfl⟩
  · intro row v hs st? ic? f? now t hc
    unfold zzzOwnerUpdate
    split
    · exact hc
    · dsimp only
      rw [if_neg (fun hcon => by rw [hc] at hcon; exact absurd hcon.2 (by simp))]
      exact hc
  · intro row v hs st? ic? f? now hown hnone
    unfold zzzOwnerUpdate
    rw [if_neg (not_ne_iff.mpr hown)]
    dsimp only
    constructor
    · intro h
      by_cases hic : ic? = some true
      · exact hic
      · rw [if_neg (fun hcon => hic hcon.1), hnone] at h
        cases h
    · intro hic
      rw [if_pos ⟨hic, hnone⟩]

theorem completedAt_set_once_witness :
    rowComplete.completed_at = some 5000 ∧
    (hsrOwnerUpdate rowComplete "owner1" bodyUncomplete 9000
        (fun _ => false)).1.completed_at = some 5000 :=
  ⟨rfl, completedAt_set_once.1 rowComplete "owner1" bodyUncomplete 9000
    (fun _ => false) 5000 rfl⟩

/-- Counterexample to claim C5: the owner PUT has no completeness guard, so
an owner update on a completed session still succeeds and replaces its
state — a complete session is not immutable. -/
theorem complete_session_mutable_cx :
    rowComplete.is_complete = true ∧
    (hsrOwnerUpdate rowComplete "owner1" bodyNewState 9000
        (fun _ => false)).2.1.ok = true ∧
    (hsrOwnerUpdate rowComplete "owner1" bodyNewState 9000
        (fun _ => false)).1.state ≠ rowComplete.state := by
  refine ⟨rfl, ?_, ?_⟩ <;> decide

/-- Claim C5 amended: once a session is complete, player actions are
rejected with the draft-already-completed error and the owner delete is
rejected (both variants), but owner updates are not blocked: they still
succeed on a complete session. -/
theorem complete_session_guards :
    (∀ (row : HsrRow) (req : ActionReq) (pt : String) (now : ℤ),
      row.is_complete = true → pt ≠ "" →
      hsrHandleAction row req pt now =
        (row, [], some "Draft already completed")) ∧
    (∀ (row : HsrRow) (v : String), row.owner_user_id = v →
      row.is_complete = true →
      hsrDeleteSession row v =
        (some row, [], some "Cannot delete a completed session")) ∧
    (∀ (row : ZzzRow) (req : ActionReq) (pt : String) (now : ℤ),
      row.is_complete = true → pt ≠ "" →
      zzzHandleAction row req pt now =
        (row, [], some "Draft already completed")) ∧
    (∀ (row : ZzzRow) (v : String), row.owner_user_id = v →
      row.is_complete = true →
      zzzDeleteSession row v =
        (some row, [], some "Cannot delete a completed session")) ∧
    (∀ (row : HsrRow) (v : String) (body : UpdateBody) (now : ℤ)
        (owns : String → Bool), row.owner_user_id = v →
      (hsrOwnerUpdate row v body now owns).2.1.ok = true) := by
  refine ⟨?_, ?_, ?_, ?_, ?_⟩
  · intro row req pt now hcomp hpt
    unfold hsrHandleAction
    rw [if_neg hpt, if_pos hcomp]
  · intro row v hown hcomp
    unfold hsrDeleteSession
    rw [if_neg (not_ne_iff.mpr hown), if_pos hcomp]
  · intro row req pt now hcomp hpt
    unfold zzzHandleAction
    rw [if_neg hpt, if_pos hcomp]
  · intro row v hown hcomp
    unfold zzzDeleteSession
    rw [if_neg (not_ne_iff.mpr hown), if_pos hcomp]
  · intro row v body now owns hown
    unfold hsrOwnerUpdate
    rw [if_neg (not_ne_iff.mpr hown)]

theorem complete_session_guards_witness :
    hsrHandleAction rowComplete pickC3Req "blueTok" 10000 =
      (rowComplete, [], some "Draft already completed") ∧
    hsrDeleteSession rowComplete "owner1" =
      (some rowComplete, [], some "Cannot delete a completed session") :=
  ⟨complete_session_guards.1 rowComplete pickC3Req "blueTok" 10000 rfl
      (by decide),
    complete_session_guards.2.1 rowComplete "owner1" rfl rfl⟩

theorem getD_some_lt {α : Type} (l : List (Option α)) (idx : ℕ) (v : α)
    (h : l.getD idx none = some v) : idx < l.length := by
  by_contra hge
  rw [List.getD_eq_default _ _ (Nat.le_of_not_lt hge)] at h
  cases h

theorem zzzSetMindscape_ok (st : ZzzState) (side : Side) (idx : ℕ)
    (eid? : Option ℚ) (st' : ZzzState)
    (h : zzzSetMindscape st side idx eid? = Except.ok st') :
    ∃ slot, st.picks.getD idx none = some slot ∧
      st' = { st with picks := st.picks.set idx (some
        { slot with eidolon := max 0 (min 6 (eid?.getD 0)) }) } := by
  unfold zzzSetMindscape at h
  dsimp only at h
  split at h
  · exact absurd h (by simp)
  split at h
  · exact absurd h (by simp)
  split at h
  · exact absurd h (by simp)
  rename_i slot hslot
  simp only [Except.ok.injEq] at h
  exact ⟨slot, hslot, h.symm⟩

theorem zzzSetSuperimpose_ok (st : ZzzState) (side : Side) (idx : ℕ)
    (sup? : Option ℚ) (st' : ZzzState)
    (h : zzzSetSuperimpose st side idx sup? = Except.ok st') :
    ∃ slot, st.picks.getD idx none = some slot ∧
      st' = { st with picks := st.picks.set idx (some
        { slot with superimpose := max 1 (min 5 (sup?.getD 1)) }) } := by
  unfold zzzSetSuperimpose at h
  dsimp only at h
  split at h
  · exact absurd h (by simp)
  split at h
  · exact absurd h (by simp)
  split at h
  · exact absurd h (by simp)
  rename_i slot hslot
  simp only [Except.ok.injEq] at h
  exact ⟨slot, hslot, h.symm⟩

/-- Claim C9: every accepted setEidolon stores the payload clamped to
`[0, 6]` and every accepted setSuperimpose stores the payload clamped to
`[1, 5]` (missing payloads default to 0 and 1), without changing
`currentTurn` — in the HSR ops and in the ZZZ setMindscape / setSuperimpose
ops alike. -/
theorem setEidolon_superimpose_clamp :
    (∀ (st : SpectatorState) (side : Side) (idx : ℕ) (eid? : Option ℚ)
        (st' : SpectatorState),
      hsrSetEidolon st side idx eid? = Except.ok st' →
      st'.currentTurn = st.currentTurn ∧
      ∃ slot, st'.picks.getD idx none = some slot ∧
        slot.eidolon = max 0 (min 6 (eid?.getD 0))) ∧
    (∀ (st : SpectatorState) (side : Side) (idx : ℕ) (sup? : Option ℚ)
        (st' : SpectatorState),
      hsrSetSuperimpose st side idx sup? = Except.ok st' →
      st'.currentTurn = st.currentTurn ∧
      ∃ slot, st'.picks.getD idx none = some slot ∧
        slot.superimpose = max 1 (min 5 (sup?.getD 1))) ∧
    (∀ (st : ZzzState) (side : Side) (idx : ℕ) (eid? : Option ℚ)
        (st' : ZzzState),
      zzzSetMindscape st side idx eid? = Except.ok st' →
      st'.currentTurn = st.currentTurn ∧
      ∃ slot, st'.picks.getD idx none = some slot ∧
        slot.eidolon = max 0 (min 6 (eid?.getD 0))) ∧
    (∀ (st : ZzzState) (side : Side) (idx : ℕ) (sup? : Option ℚ)
        (st' : ZzzState),
      zzzSetSuperimpose st side idx sup? = Except.ok st' →
      st'.currentTurn = st.currentTurn ∧
      ∃ slot, st'.picks.getD idx none = some slot ∧
        slot.superimpose = max 1 (min 5 (sup?.getD 1))) := by
  refine ⟨?_, ?_, ?_, ?_⟩
  · intro st side idx eid? st' h
    obtain ⟨slot, hslot, hst⟩ := hsrSetEidolon_ok _ _ _ _ _ h
    subst hst
    have hlt : idx < st.picks.length := getD_some_lt _ _ _ hslot
    refine ⟨rfl, { slot with eidolon := max 0 (min 6 (eid?.getD 0)) }, ?_, rfl⟩
    dsimp only
    exact getD_set_self _ _ _ _ hlt
  · intro st side idx sup? st' h
    obtain ⟨slot, hslot, hst⟩ := hsrSetSuperimpose_ok _ _ _ _ _ h
    subst hst
    have hlt : idx < st.picks.length := getD_some_lt _ _ _ hslot
    refine ⟨rfl, { slot with superimpose := max 1 (min 5 (sup?.getD 1)) }, ?_, rfl⟩
    dsimp only
    exact getD_set_self _ _ _ _ hlt
  · intro st side idx eid? st' h
    obtain ⟨slot, hslot, hst⟩ := zzzSetMindscape_ok _ _ _ _ _ h
    subst hst
    have hlt : idx < st.picks.length := getD_some_lt _ _ _ hslot
    refine ⟨rfl, { slot with eidolon := max 0 (min 6 (eid?.getD 0)) }, ?_, rfl⟩
    dsimp only
    exact getD_set_self _ _ _ _ hlt
  · intro st side idx sup? st' h
    obtain ⟨slot, hslot, hst⟩ := zzzSetSuperimpose_ok _ _ _ _ _ h
    subst hst
    have hlt : idx < st.picks.length := getD_some_lt _ _ _ hslot
    refine ⟨rfl, { slot with superimpose := max 1 (min 5 (sup?.getD 1)) }, ?_, rfl⟩
    dsimp only
    exact getD_set_self _ _ _ _ hlt

theorem setEidolon_superimpose_clamp_witness :
    hsrSetEidolon rowTinyAfter.state Side.B 0 (some 7) =
      Except.ok stEidAfter ∧
    stEidAfter.currentTurn = rowTinyAfter.state.currentTurn ∧
    (∃ slot, stEidAfter.picks.getD 0 none = some slot ∧
      slot.eidolon = max 0 (min 6 ((some (7 : ℚ)).getD 0))) := by
  have hEq : hsrSetEidolon rowTinyAfter.state Side.B 0 (some 7) =
      Except.ok stEidAfter := by decide
  exact ⟨hEq, (setEidolon_superimpose_clamp.1 _ _ _ _ _ hEq).1,
    (setEidolon_superimpose_clamp.1 _ _ _ _ _ hEq).2⟩

/-- Claim C10: an owner update whose state field is missing, or present but
failing shape validation, still succeeds with stateUpdated = false and no
error; the stored state column is unchanged while the featured, isComplete,
costProfileId, costLimit and penaltyPerPoint values supplied in the same
request are still applied (the ZZZ variant has no cost fields). -/
theorem invalid_state_silently_dropped :
    (∀ (row : HsrRow) (v : String) (body : UpdateBody) (now : ℤ)
        (owns : String → Bool), row.owner_user_id = v →
      wantsValidState body = false →
      (hsrOwnerUpdate row v body now owns).2.1 =
        { ok := true, stateUpdated := false, error := none } ∧
      (hsrOwnerUpdate row v body now owns).1.state = row.state ∧
      (hsrOwnerUpdate row v body now owns).1.featured =
        body.featured.getD row.featured ∧
      (hsrOwnerUpdate row v body now owns).1.is_complete =
        body.isComplete.getD row.is_complete ∧
      (∀ cl, body.costLimit = some cl → 0 < cl →
        (hsrOwnerUpdate row v body now owns).1.cost_limit = cl) ∧
      (∀ pp, body.penaltyPerPoint = some pp → 0 < pp →
        (hsrOwnerUpdate row v body now owns).1.penalty_per_point = ⌊pp⌋) ∧
      (body.costProfileId = some none →
        (hsrOwnerUpdate row v body now owns).1.cost_profile_id = none) ∧
      (∀ cid, body.costProfileId = some (some cid) → cid ≠ "" →
        owns cid = true →
        (hsrOwnerUpdate row v body now owns).1.cost_profile_id = some cid)) ∧
    (∀ (row : ZzzRow) (v : String) (hs : Bool) (st? : Option ZzzState)
        (ic? : Option Bool) (f? : Option (List FeaturedItem)) (now : ℤ),
      row.owner_user_id = v →
      (hs && (match st? with
        | some s => zzzIsValidStateB s
        | none => false)) = false →
      (zzzOwnerUpdate row v hs st? ic? f? now).2.1 =
        { ok := true, stateUpdated := false, error := none } ∧
      (zzzOwnerUpdate row v hs st? ic? f? now).1.state = row.state ∧
      (zzzOwnerUpdate row v hs st? ic? f? now).1.featured =
        f?.getD row.featured ∧
      (zzzOwnerUpdate row v hs st? ic? f? now).1.is_complete =
        ic?.getD row.is_complete) := by
  constructor
  · intro row v body now owns hown hns
    unfold hsrOwnerUpdate
    rw [if_neg (not_ne_iff.mpr hown)]
    dsimp only
    rw [hns]
    refine ⟨rfl, by simp, rfl, rfl, ?_, ?_, ?_, ?_⟩
    · intro cl hcl hpos
      rw [hcl]
      dsimp only
      rw [if_pos hpos]
      rfl
    · intro pp hpp hpos
      rw [hpp]
      dsimp only
      rw [if_pos hpos]
      rfl
    · intro hclr
      rw [hclr]
    · intro cid hcid hne howns
      rw [hcid]
      dsimp only
      rw [if_pos hne, if_pos howns]
  · intro row v hs st? ic? f? now hown hns
    unfold zzzOwnerUpdate
    rw [if_neg (not_ne_iff.mpr hown)]
    dsimp only
    rw [hns]
    exact ⟨rfl, by simp, rfl, rfl⟩

theorem invalid_state_silently_dropped_witness :
    (hsrOwnerUpdate rowScenario "owner1" bodyInvalidState 7000
        (fun _ => false)).2.1 =
      { ok := true, stateUpdated := false, error := none } ∧
    (hsrOwnerUpdate rowScenario "owner1" bodyInvalidState 7000
        (fun _ => false)).1.state = rowScenario.state ∧
    (hsrOwnerUpdate rowScenario "owner1" bodyInvalidState 7000
        (fun _ => false)).1.cost_limit = 9 := by
  have h := invalid_state_silently_dropped.1 rowScenario "owner1"
    bodyInvalidState 7000 (fun _ => false) rfl (by decide)
  exact ⟨h.1, h.2.1, h.2.2.2.2.1 9 rfl (by norm_num)⟩

theorem sideLocked_congr (s s' : SpectatorState) (side : Side)
    (hb : s.blueLocked = s'.blueLocked) (hr : s.redLocked = s'.redLocked) :
    sideLocked s side = sideLocked s' side := by
  cases side
  · exact hb
  · exact hr

theorem resetGrace_timerUpdatedAt (s : SpectatorState) (now : ℤ) :
    (resetGraceForNewTurn s now).timerUpdatedAt = some now := rfl

theorem burnToNow_reserve_within_grace (s : SpectatorState) (now t : ℤ)
    (b r : ℚ)
    (hrl : s.reserveLeft = some (b, r)) (hb0 : 0 ≤ b) (hr0 : 0 ≤ r)
    (hb3 : Dec3 b) (hr3 : Dec3 r)
    (ht : s.timerUpdatedAt = some t)
    (hbound : max 0 (((now - t : ℤ) : ℚ) / 1000) ≤
      max 0 (s.graceLeft.getD MOVE_GRACE)) :
    (burnToNow s now).reserveLeft = some (b, r) := by
  unfold burnToNow initTimerFields
  simp only []
  rw [hrl, ht]
  simp only [Option.getD_some]
  split
  · exact rfl
  cases hside : sideOfTok (s.draftSequence.getD s.currentTurn "") with
  | none => exact rfl
  | some sd =>
    dsimp only
    split
    · rfl
    · have hdt : ∀ last : ℤ, (if t = 0 then now else t) = last →
        max 0 (((now - (if t = 0 then now else t) : ℤ) : ℚ) / 1000) ≤
          max 0 (s.graceLeft.getD MOVE_GRACE) := by
        intro last _
        by_cases h0 : t = 0
        · rw [if_pos h0]
          simp only [sub_self, Int.cast_zero, zero_div, max_self]
          exact le_max_left 0 _
        · rw [if_neg h0]
          exact hbound
      have hdtb := hdt _ rfl
      set dt0 : ℚ := max 0 (((now - (if t = 0 then now else t) : ℤ) : ℚ) / 1000)
        with hdt0def
      have hdt0pos : 0 ≤ dt0 := le_max_left 0 _
      have hg : min (max 0 (s.graceLeft.getD MOVE_GRACE)) dt0 = dt0 :=
        min_eq_right hdtb
      rw [hg]
      have hz : dt0 - dt0 = 0 := sub_self dt0
      rw [hz]
      simp only [lt_irrefl, if_false]
      rw [max_eq_right hb0, max_eq_right hr0, fix3_eq_self hb3, fix3_eq_self hr3]

/-- Claim C7 amended: a pick accepted at time t1 on a state whose timer
checkpoint is t1 and whose target slot is empty, followed by an undoLast by
the same side at time t2, is always accepted and restores picks,
currentTurn and both side locks; both reserveLeft values are restored
provided at most the 30 s grace window elapsed between pick and undo
(t2 - t1 ≤ 30000 ms) — for longer gaps the burn at undo time debits the
reserve of the side then on the clock, which the undo does not refund. -/
theorem pick_undo_roundtrip (st : SpectatorState) (fl : FeaturedLists)
    (side : Side) (idx : ℕ) (code? : Option String) (t1 t2 : ℤ)
    (s1 : SpectatorState)
    (hlen : st.picks.length = st.draftSequence.length)
    (hidx : idx < st.draftSequence.length)
    (hemp : st.picks.getD idx none = none)
    (hpick : hsrPick (burnToNow st t1) fl side idx code? t1 = Except.ok s1) :
    ∃ s2, hsrUndoLast (burnToNow s1 t2) side none t2 = Except.ok s2 ∧
      s2.picks = st.picks ∧ s2.currentTurn = st.currentTurn ∧
      s2.blueLocked = st.blueLocked ∧ s2.redLocked = st.redLocked ∧
      (∀ b r, st.reserveLeft = some (b, r) → 0 ≤ b → 0 ≤ r → Dec3 b →
        Dec3 r → st.timerUpdatedAt = some t1 → (t2 - t1 : ℤ) ≤ 30000 →
        s2.reserveLeft = some (b, r)) := by
  obtain ⟨hbds, hbct, hbpk, hbbl, hbrl, hbte⟩ := burnToNow_frame st t1
  obtain ⟨hlock, hturn, hsideP, hbanP, code, hc, hne, hdup, hs1⟩ :=
    hsrPick_ok _ _ _ _ _ _ _ hpick
  have hctlt : st.currentTurn < st.draftSequence.length := by
    rw [← hbct, ← hturn]
    exact hidx
  -- the slot written by the pick
  set slot : ServerPick :=
    { characterCode := code, eidolon := 0, lightconeId := none,
      superimpose := 1 } with hslotdef
  -- projections of the post-pick state s1
  have hs1pk : s1.picks = st.picks.set idx (some slot) := by
    rw [hs1]
    rw [(resetGrace_frame _ t1).2.2.1]
    dsimp only
    rw [hbpk]
  have hs1ct : s1.currentTurn = st.currentTurn + 1 := by
    rw [hs1]
    rw [(resetGrace_frame _ t1).2.1]
    dsimp only
    rw [hbct, hbds]
    omega
  have hs1ds : s1.draftSequence = st.draftSequence := by
    rw [hs1]
    rw [(resetGrace_frame _ t1).1]
    dsimp only
    exact hbds
  have hs1bl : s1.blueLocked = st.blueLocked := by
    rw [hs1]
    rw [(resetGrace_frame _ t1).2.2.2.1]
    dsimp only
    exact hbbl
  have hs1rl : s1.redLocked = st.redLocked := by
    rw [hs1]
    rw [(resetGrace_frame _ t1).2.2.2.2.1]
    dsimp only
    exact hbrl
  have hs1g : s1.graceLeft = some MOVE_GRACE := by
    rw [hs1]
    exact (resetGrace_frame _ t1).2.2.2.2.2
  have hs1t : s1.timerUpdatedAt = some t1 := by
    rw [hs1]
    exact resetGrace_timerUpdatedAt _ t1
  -- projections of the burned state at undo time
  obtain ⟨hcds, hcct, hcpk, hcbl, hcrl, hcte⟩ := burnToNow_frame s1 t2
  have hct2 : (burnToNow s1 t2).currentTurn = st.currentTurn + 1 := by
    rw [hcct, hs1ct]
  have hpk2 : (burnToNow s1 t2).picks = st.picks.set idx (some slot) := by
    rw [hcpk, hs1pk]
  have hds2 : (burnToNow s1 t2).draftSequence = st.draftSequence := by
    rw [hcds, hs1ds]
  have hidxeq : idx = st.currentTurn := by
    rw [hturn, hbct]
  have hlock2 : sideLocked (burnToNow s1 t2) side = false := by
    have hcongr := sideLocked_congr (burnToNow s1 t2) (burnToNow st t1) side
      (by rw [hcbl, hs1bl, ← hbbl]) (by rw [hcrl, hs1rl, ← hbrl])
    exact hcongr.trans hlock
  have hside2 : sideOfTok ((burnToNow s1 t2).draftSequence.getD
      ((burnToNow s1 t2).currentTurn - 1) "") = some side := by
    rw [hds2, hct2, Nat.add_sub_cancel, ← hidxeq, ← hbds]
    exact hsideP
  have hpicks2 : (burnToNow s1 t2).picks.getD
      ((burnToNow s1 t2).currentTurn - 1) none = some slot := by
    rw [hpk2, hct2, Nat.add_sub_cancel, ← hidxeq]
    exact getD_set_self _ _ _ _ (by rw [hlen]; exact hidx)
  refine ⟨resetGraceForNewTurn
      { burnToNow s1 t2 with
          picks := (burnToNow s1 t2).picks.set
            ((burnToNow s1 t2).currentTurn - 1) none,
          currentTurn := (burnToNow s1 t2).currentTurn - 1 } t2,
    ?_, ?_, ?_, ?_, ?_, ?_⟩
  · unfold hsrUndoLast
    rw [if_neg (by rw [hct2]; omega)]
    dsimp only
    rw [if_neg (by decide : ¬((!true) = true))]
    rw [if_neg (by rw [hlock2]; decide)]
    rw [if_neg (by rw [hside2]; simp)]
    rw [hpicks2]
  · rw [(resetGrace_frame _ t2).2.2.1]
    dsimp only
    rw [hpk2, hct2, Nat.add_sub_cancel, ← hidxeq, List.set_set]
    exact set_getD_none _ _ hemp
  · rw [(resetGrace_frame _ t2).2.1]
    dsimp only
    rw [hct2]
    omega
  · rw [(resetGrace_frame _ t2).2.2.2.1]
    dsimp only
    rw [hcbl, hs1bl]
  · rw [(resetGrace_frame _ t2).2.2.2.2.1]
    dsimp only
    rw [hcrl, hs1rl]
  · intro b r hrl0 hb0 hr0 hb3 hr3 ht0 hgap
    -- the pick-time burn leaves the reserves untouched (dt = 0)
    have hb1 : (burnToNow st t1).reserveLeft = some (b, r) := by
      apply burnToNow_reserve_within_grace st t1 t1 b r hrl0 hb0 hr0 hb3 hr3 ht0
      simp only [sub_self, Int.cast_zero, zero_div, max_self]
      exact le_max_left 0 _
    have hs1res : s1.reserveLeft = some (b, r) := by
      rw [hs1]
      apply resetGrace_reserveLeft
      exact hb1
    -- the undo-time burn stays inside the fresh 30 s grace window
    have hb2 : (burnToNow s1 t2).reserveLeft = some (b, r) := by
      apply burnToNow_reserve_within_grace s1 t2 t1 b r hs1res hb0 hr0 hb3 hr3 hs1t
      rw [hs1g]
      simp only [Option.getD_some]
      have h30 : max 0 MOVE_GRACE = MOVE_GRACE := by
        rw [max_eq_right]
        norm_num [MOVE_GRACE]
      rw [h30]
      rw [max_le_iff]
      constructor
      · norm_num [MOVE_GRACE]
      · rw [div_le_iff₀ (by norm_num : (0 : ℚ) < 1000)]
        have : ((t2 - t1 : ℤ) : ℚ) ≤ 30000 := by exact_mod_cast hgap
        calc ((t2 - t1 : ℤ) : ℚ) ≤ 30000 := this
        _ = MOVE_GRACE * 1000 := by norm_num [MOVE_GRACE]
    apply resetGrace_reserveLeft
    exact hb2

theorem pick_undo_roundtrip_witness :
    stTiny.picks.getD 0 none = none ∧
    (∃ s2, hsrUndoLast (burnToNow rowTinyAfter.state 5000) Side.B none 5000 =
        Except.ok s2 ∧
      s2.picks = stTiny.picks ∧ s2.currentTurn = stTiny.currentTurn ∧
      s2.blueLocked = stTiny.blueLocked ∧ s2.redLocked = stTiny.redLocked ∧
      (∀ b r, stTiny.reserveLeft = some (b, r) → 0 ≤ b → 0 ≤ r → Dec3 b →
        Dec3 r → stTiny.timerUpdatedAt = some 0 →
        ((5000 : ℤ) - 0 ≤ 30000) → s2.reserveLeft = some (b, r))) :=
  ⟨rfl, pick_undo_roundtrip stTiny (featuredListsOf []) Side.B 0 (some "x")
    0 5000 rowTinyAfter.state (by decide) (by decide) rfl (by decide)⟩

/-- Counterexample to claim C7: Blue picks c3 at t = 10 s and undoes at
t = 50 s. Picks and currentTurn return to their pre-pick values, but the
reserves do not: the undo-time burn debits Red (the side on the clock after
the pick) by the 10 s beyond the grace window, and the undo never refunds
it — so the round-trip does not restore both reserveLeft values regardless
of elapsed wall-clock time. -/
theorem pick_undo_reserve_cx :
    hsrPick (burnToNow stScenario 10000) (featuredListsOf []) Side.B 2
      (some "c3") 10000 = Except.ok stPickedCx ∧
    hsrUndoLast (burnToNow stPickedCx 50000) Side.B none 50000 =
      Except.ok stUndoneCx ∧
    stUndoneCx.picks = stScenario.picks ∧
    stUndoneCx.currentTurn = stScenario.currentTurn ∧
    stUndoneCx.reserveLeft ≠ stScenario.reserveLeft := by
  refine ⟨?_, ?_, by decide, by decide, ?_⟩
  · norm_num +decide [hsrPick, burnToNow, initTimerFields, isFirstBanForSide,
      sideOfTok, isBanTok, strStartsWith, pausedFor, MOVE_GRACE, fix3,
      sideLocked, mySideCodes, sideStr, resetGraceForNewTurn, stScenario,
      stPickedCx, featuredListsOf, List.isPrefixOf, List.range, List.all]
  · norm_num +decide [hsrUndoLast, burnToNow, initTimerFields,
      isFirstBanForSide, sideOfTok, isBanTok, strStartsWith, pausedFor,
      MOVE_GRACE, fix3, sideLocked, sideStr, resetGraceForNewTurn,
      stScenario, stPickedCx, stUndoneCx, featuredListsOf, List.isPrefixOf,
      List.range, List.all]
  · intro hcon
    rw [show stUndoneCx.reserveLeft = some ((180 : ℚ), 170) from rfl,
      show stScenario.reserveLeft = some ((180 : ℚ), 180) from rfl] at hcon
    simp only [Option.some.injEq, Prod.mk.injEq] at hcon
    exact absurd hcon.2 (by norm_num)

/-- Counterexample to claim C8: running the scenario (Blue picks c3 at
index 2 at t = 10 s, undoes at t = 45 s), the stored reserveLeft is
(B = 180, R = 175): Blue's reserve is not 175 as the claim computes — the
5 s beyond the grace window is charged to Red, the side whose turn follows
Blue's pick. -/
theorem undo_timing_cx :
    rowAfterUndo.state.reserveLeft = some (180, 175) ∧
    ¬ ∃ r, rowAfterUndo.state.reserveLeft = some (175, r) := by
  have h : rowAfterUndo = rowAfterUndoExpected := by
    norm_num +decide [rowAfterUndo, rowAfterPick, rowAfterUndoExpected,
      hsrHandleAction, resolveSide, isValidStateB, hsrReduce, hsrOpAlias,
      checkIndex, burnToNow, initTimerFields, isFirstBanForSide, sideOfTok,
      isBanTok, strStartsWith, pausedFor, MOVE_GRACE, fix3, hsrPick,
      hsrUndoLast, sideLocked, mySideCodes, sideStr, resetGraceForNewTurn,
      rowScenario, stScenario, pickC3Req, undoReq, emptyReq, featuredListsOf,
      List.isPrefixOf, List.range, List.all]
  rw [h]
  constructor
  · rfl
  · rintro ⟨r, hr⟩
    rw [show rowAfterUndoExpected.state.reserveLeft = some ((180 : ℚ), 175)
      from rfl] at hr
    simp only [Option.some.injEq, Prod.mk.injEq] at hr
    exact absurd hr.1 (by norm_num)

/-- Claim C8 amended: in the scenario of spec scenario 5 (pick of c3 at
index 2 at t = 10 s with the checkpoint at the pick, undo at t = 45 s) the
resulting state has currentTurn = 2, picks[2] empty, graceLeft = 30, and
reserveLeft = (B = 180, R = 175): the 35 s burn applied before the grace
reset drains the 30 s grace and then 5 s from Red's reserve — Red being the
side on the clock after Blue's pick — while Blue's reserve is unchanged. -/
theorem undo_timing_scenario :
    rowAfterPick.state.currentTurn = 3 ∧
    rowAfterUndo.state.currentTurn = 2 ∧
    rowAfterUndo.state.picks.getD 2 none = none ∧
    rowAfterUndo.state.graceLeft = some 30 ∧
    rowAfterUndo.state.reserveLeft = some (180, 175) ∧
    rowAfterUndo.state.timerUpdatedAt = some 45000 := by
  have hp : rowAfterPick = rowAfterPickExpected := by
    norm_num +decide [rowAfterPick, rowAfterPickExpected, hsrHandleAction,
      resolveSide, isValidStateB, hsrReduce, hsrOpAlias, checkIndex,
      burnToNow, initTimerFields, isFirstBanForSide, sideOfTok, isBanTok,
      strStartsWith, pausedFor, MOVE_GRACE, fix3, hsrPick, sideLocked,
      mySideCodes, sideStr, resetGraceForNewTurn, rowScenario, stScenario,
      stPickedCx, pickC3Req, emptyReq, featuredListsOf, List.isPrefixOf,
      List.range, List.all]
  have hu : rowAfterUndo = rowAfterUndoExpected := by
    norm_num +decide [rowAfterUndo, rowAfterPick, rowAfterUndoExpected,
      hsrHandleAction, resolveSide, isValidStateB, hsrReduce, hsrOpAlias,
      checkIndex, burnToNow, initTimerFields, isFirstBanForSide, sideOfTok,
      isBanTok, strStartsWith, pausedFor, MOVE_GRACE, fix3, hsrPick,
      hsrUndoLast, sideLocked, mySideCodes, sideStr, resetGraceForNewTurn,
      rowScenario, stScenario, pickC3Req, undoReq, emptyReq, featuredListsOf,
      List.isPrefixOf, List.range, List.all]
  rw [hp, hu]
  exact ⟨rfl, rfl, rfl, rfl, rfl, rfl⟩

end CipherPvP
